import Mathlib

/-!
Verification development for the gb-rs emulator core (PPU, APU channel 1,
ROM-only MBC).  Every definition below is a shallow embedding of the
corresponding Rust item in src/; machine integers are modelled as `Nat`
with explicit `% 2^w` where the source can wrap (release-mode semantics),
and fallible code (indexing, `Option::unwrap`) returns `Option`.
-/

set_option maxRecDepth 10000

/-- DMG/CGB selector (src/mode.rs is not part of the provided sources; the
PPU only compares this field against `GBMode::Color`, so a two-valued
enum suffices.  Modelled from the spec: mono vs color mode). -/
inductive GBMode where
  | DMG
  | Color
deriving DecidableEq

/-- PPU mode enum, src/ppu.rs lines 40-46. -/
inductive PPUMode where
  | OAMScan
  | Draw
  | HBlank
  | VBlank
deriving DecidableEq

/-- The numeric discriminants of `PPUMode` (`self.ppu_mode as u8`). -/
def PPUMode.code : PPUMode → Nat
  | .OAMScan => 2
  | .Draw => 3
  | .HBlank => 0
  | .VBlank => 1

/-- Background priority marker, src/ppu.rs lines 33-38. -/
inductive Priority where
  | Color0
  | Priority
  | Normal
deriving DecidableEq

/-- Pending interrupt lines raised by the PPU.  Modelled from the spec:
src/mmu.rs (the `Interrupts` bitflags) is not part of the provided
sources; spec section 3 describes the field as a set over
\x7bVBLANK, LCD\x7d, which we model as two booleans. -/
structure Interrupts where
  v_blank : Bool
  lcd : Bool
deriving DecidableEq

/-- PPU state, src/ppu.rs lines 9-31.  `ram` (0x4000 bytes), `oam`
(0xA0 bytes), `bgprio` (160 entries) and `frame_buffer`
(4*160*144 bytes) are modelled as total functions from index to value. -/
structure PPU where
  gb_mode : GBMode
  ppu_mode : PPUMode
  cycle_count : Nat
  vblanked_lines : Nat
  sy : Nat
  sx : Nat
  ly : Nat
  lc : Nat
  wy : Nat
  wx : Nat
  bgp : Nat
  op0 : Nat
  op1 : Nat
  lcdc : Nat
  lcds : Nat
  ram : Nat → Nat
  ram_bank : Nat
  oam : Nat → Nat
  bgprio : Nat → Priority
  interrupts : Interrupts
  frame_buffer : Nat → Nat

/-- `PPU::new`, src/ppu.rs lines 98-122. -/
def PPU.new (m : GBMode) : PPU where
  gb_mode := m
  ppu_mode := .OAMScan
  cycle_count := 0
  vblanked_lines := 0
  sy := 0
  sx := 0
  ly := 0
  lc := 0
  wy := 0
  wx := 0
  bgp := 0
  op0 := 0
  op1 := 1
  lcdc := 0
  lcds := 0
  ram := fun _ => 0
  ram_bank := 0
  oam := fun _ => 0
  bgprio := fun _ => .Normal
  interrupts := ⟨false, false⟩
  frame_buffer := fun _ => 0

/-- `LCDC::from_bits` (bitflags).  All eight bits of LCDC are defined
(src/ppu.rs lines 59-79), so the defined-bits mask is 0xFF. -/
def LCDC.from_bits (v : Nat) : Option Nat :=
  if v &&& 0xFF = v then some v else none

/-- `LCDS::from_bits` (bitflags).  The defined bits are 0x40, 0x20, 0x10,
0x08, 0x04 (src/ppu.rs lines 81-96), so the defined-bits mask is 0x7C. -/
def LCDS.from_bits (v : Nat) : Option Nat :=
  if v &&& 0x7C = v then some v else none

/-- `Attributes::from_bits`.  Defined bits are 0x80, 0x40, 0x20, 0x10,
0x08 (src/ppu.rs lines 48-57), so the defined-bits mask is 0xF8. -/
def Attributes.from_bits (v : Nat) : Option Nat :=
  if v &&& 0xF8 = v then some v else none

/-- `Attributes::from_bits_truncate`. -/
def Attributes.from_bits_truncate (v : Nat) : Nat :=
  v &&& 0xF8

/-- `PPU::grey_to_l`, src/ppu.rs lines 211-218. -/
def PPU.grey_to_l (v i : Nat) : Nat × Nat × Nat :=
  match (v >>> (2 * i)) &&& 0x03 with
  | 0 => (175, 203, 70)
  | 1 => (121, 170, 109)
  | 2 => (34, 111, 95)
  | _ => (8, 41, 85)

/-- `PPU::set_rgb`, src/ppu.rs lines 220-232 (bytes_per_pixel = 4,
bytes_per_row = 4 * 160, vertical offset `ly * bytes_per_row`). -/
def PPU.set_rgb (s : PPU) (x r g b : Nat) : PPU :=
  { s with frame_buffer := fun j =>
      if j = s.ly * (4 * 160) + x * 4 then r
      else if j = s.ly * (4 * 160) + x * 4 + 1 then g
      else if j = s.ly * (4 * 160) + x * 4 + 2 then b
      else if j = s.ly * (4 * 160) + x * 4 + 3 then 0xFF
      else s.frame_buffer j }

/-- `PPU::read_ram0`, src/ppu.rs lines 417-419. -/
def PPU.read_ram0 (s : PPU) (a : Nat) : Nat :=
  s.ram (a - 0x8000)

/-- `PPU::read_ram1`, src/ppu.rs lines 421-423 (`self.ram[a - 0x6000]`). -/
def PPU.read_ram1 (s : PPU) (a : Nat) : Nat :=
  s.ram (a - 0x6000)

/-- Body of the per-pixel loop of `PPU::draw_bg`, src/ppu.rs lines
257-334.  `tile_data_base`, `wx` (already shifted to screen space),
`in_window_y` and `py` are the loop-invariant values computed before the
loop.  Returns `none` when `Attributes::from_bits(...).unwrap()` would
fail (src/ppu.rs line 296). -/
def PPU.draw_bg_pixel (s : PPU) (tile_data_base wx : Nat)
    (in_window_y : Bool) (py x : Nat) : Option PPU :=
  let in_window_x : Bool := decide (wx ≤ x)
  let px := if in_window_y && in_window_x then x - wx else (s.sx + x) % 256
  let tile_map_base :=
    if in_window_y && in_window_x then
      if s.lcdc.testBit 6 then 0x9C00 else 0x9800
    else if s.lcdc.testBit 3 then 0x9C00 else 0x9800
  let tile_index_y := (py >>> 3) &&& 31
  let tile_index_x := (px >>> 3) &&& 31
  let tile_address := tile_map_base + tile_index_y * 32 + tile_index_x
  let tile_index := s.read_ram0 tile_address
  -- `(tile_index as i8) as i16 + 128` equals `(tile_index + 128) % 256`
  -- for a byte value; the whole if-expression is then `as u16 * 16`.
  let tile_offset :=
    (if s.lcdc.testBit 4 then tile_index else (tile_index + 128) % 256) * 16
  let tile_data_location := tile_data_base + tile_offset
  (Attributes.from_bits (s.read_ram1 tile_address)).map fun tile_attributes =>
    let tile_y := if tile_attributes.testBit 6 then 7 - py % 8 else py % 8
    let tile_x := if tile_attributes.testBit 5 then 7 - px % 8 else px % 8
    let tile_y_data :=
      if s.gb_mode = GBMode.Color ∧ tile_attributes.testBit 3 then
        (s.read_ram1 (tile_data_location + tile_y * 2),
         s.read_ram1 (tile_data_location + tile_y * 2 + 1))
      else
        (s.read_ram0 (tile_data_location + tile_y * 2),
         s.read_ram0 (tile_data_location + tile_y * 2 + 1))
    let color_l := if tile_y_data.1 &&& (0x80 >>> tile_x) ≠ 0 then 1 else 0
    let color_h := if tile_y_data.2 &&& (0x80 >>> tile_x) ≠ 0 then 2 else 0
    let color := color_h ||| color_l
    let prio : Priority :=
      if color = 0 then .Color0
      else if tile_attributes.testBit 7 then .Priority else .Normal
    let s1 : PPU :=
      { s with bgprio := fun j => if j = x then prio else s.bgprio j }
    -- In color mode the source emits r = g = b = 0 (palette decoding is
    -- a TODO there); in mono mode it emits the BGP grayscale tuple.
    let rgb : Nat × Nat × Nat :=
      if s1.gb_mode = GBMode.Color then (0, 0, 0)
      else PPU.grey_to_l s1.bgp color
    s1.set_rgb x rgb.1 rgb.2.1 rgb.2.2

/-- `PPU::draw_bg`, src/ppu.rs lines 234-335.  `wx.wrapping_sub(7)` and
the wrapping additions are `(· + 256 - ·) % 256` on byte values. -/
def PPU.draw_bg (s : PPU) : Option PPU :=
  let tile_data_base := if s.lcdc.testBit 4 then 0x8000 else 0x8800
  let wx := (s.wx + 256 - 7) % 256
  let in_window_y : Bool := s.lcdc.testBit 5 && decide (s.wy ≤ s.ly)
  let py := if in_window_y then (s.ly + 256 - s.wy) % 256
            else (s.sy + s.ly) % 256
  (List.range 160).foldlM
    (fun t x => PPU.draw_bg_pixel t tile_data_base wx in_window_y py x) s

/-- `Memory::read` for the PPU, src/ppu.rs lines 427-465.  `none` models
the panicking default arm. -/
def PPU.read (s : PPU) (a : Nat) : Option Nat :=
  if 0x8000 ≤ a ∧ a ≤ 0x9FFF then
    some (if s.ppu_mode ≠ .Draw then s.ram (s.ram_bank * 0x2000 + a - 0x8000)
          else 0xFF)
  else if 0xFE00 ≤ a ∧ a ≤ 0xFE9F then
    some (if s.ppu_mode ≠ .Draw ∧ s.ppu_mode ≠ .OAMScan then s.oam (a - 0xFE00)
          else 0xFF)
  else if a = 0xFF40 then some s.lcdc
  else if a = 0xFF41 then
    some ((if s.ly = s.lc then s.lcds ||| 0x04 else s.lcds) ||| s.ppu_mode.code)
  else if a = 0xFF42 then some s.sy
  else if a = 0xFF43 then some s.sx
  else if a = 0xFF44 then some s.ly
  else if a = 0xFF45 then some s.lc
  else if a = 0xFF47 then some s.bgp
  else if a = 0xFF48 then some s.op0
  else if a = 0xFF49 then some s.op1
  else if a = 0xFF4A then some s.wy
  else if a = 0xFF4B then some s.wx
  else if a = 0xFF4D then some 0
  else if a = 0xFF4F then some (0xFE ||| s.ram_bank % 256)
  else if 0xFF60 ≤ a ∧ a ≤ 0xFF6F then some 0
  else none

/-- Body of the inner pixel loop of `PPU::draw_sprites`, src/ppu.rs lines
377-413.  `px.wrapping_add(x)` is `(px + x) % 256`. -/
def PPU.draw_sprite_pixel (s : PPU) (tile_attributes px : Nat)
    (tile_y_data : Nat × Nat) (x : Nat) : PPU :=
  if 160 ≤ (px + x) % 256 then s
  else
    let tile_x := if tile_attributes.testBit 5 then 7 - x else x
    let color_low := if tile_y_data.1 &&& (0x80 >>> tile_x) ≠ 0 then 1 else 0
    let color_high := if tile_y_data.2 &&& (0x80 >>> tile_x) ≠ 0 then 2 else 0
    let color := color_high ||| color_low
    if color = 0 then s
    else
      let prio := s.bgprio ((px + x) % 256)
      let skip :=
        if s.gb_mode = GBMode.Color ∧ ¬ s.lcdc.testBit 0 then
          prio = Priority.Priority
        else if prio = Priority.Priority then prio ≠ Priority.Color0
        else tile_attributes.testBit 7 ∧ prio ≠ Priority.Color0
      if skip then s
      else if s.gb_mode = GBMode.Color then s
      else
        let rgb : Nat × Nat × Nat :=
          if tile_attributes.testBit 4 then PPU.grey_to_l s.op1 color
          else PPU.grey_to_l s.op0 color
        s.set_rgb ((px + x) % 256) rgb.1 rgb.2.1 rgb.2.2

/-- One iteration of the sprite loop of `PPU::draw_sprites`, src/ppu.rs
lines 340-414.  The OAM bytes are fetched through `Memory::read` just as
the source does (`self.read(sprite_address)`), so the `Option` threads
the panicking default arm of `read`; the byte-level `wrapping_sub`,
overflow-wrap of `py + sprite_size - 1`, and culling tests are
reproduced with explicit `% 256` arithmetic. -/
def PPU.draw_sprite (s : PPU) (i : Nat) : Option PPU :=
  let sprite_size := if s.lcdc.testBit 2 then 16 else 8
  let sprite_address := 0xFE00 + i * 4
  (s.read sprite_address).bind fun b0 =>
  (s.read (sprite_address + 1)).bind fun b1 =>
  (s.read (sprite_address + 2)).bind fun b2 =>
  (s.read (sprite_address + 3)).map fun b3 =>
  let py := (b0 + 256 - 16) % 256
  let px := (b1 + 256 - 8) % 256
  let tile_number := b2 &&& (if s.lcdc.testBit 2 then 0xFE else 0xFF)
  let tile_attributes := Attributes.from_bits_truncate b3
  let culled :=
    if py ≤ 0xFF - sprite_size + 1 then
      s.ly < py ∨ ((py + sprite_size) % 256 + 255) % 256 < s.ly
    else
      (py + sprite_size) % 256 - 1 < s.ly
  if culled then s
  else if 160 ≤ px ∧ px ≤ 0xFF - 7 then s
  else
    let tile_y := if tile_attributes.testBit 6 then
        sprite_size - 1 - (s.ly + 256 - py) % 256
      else (s.ly + 256 - py) % 256
    let tile_y_address := 0x8000 + tile_number * 16 + tile_y * 2
    let tile_y_data :=
      if s.gb_mode = GBMode.Color ∧ tile_attributes.testBit 3 then
        (s.read_ram1 tile_y_address, s.read_ram1 (tile_y_address + 1))
      else
        (s.read_ram0 tile_y_address, s.read_ram0 (tile_y_address + 1))
    (List.range 8).foldl
      (fun t x => PPU.draw_sprite_pixel t tile_attributes px tile_y_data x) s

/-- `PPU::draw_sprites`, src/ppu.rs lines 337-415. -/
def PPU.draw_sprites (s : PPU) : Option PPU :=
  (List.range 40).foldlM PPU.draw_sprite s

/-- The LY == LC comparison performed at the top of every enabled
`PPU::cycle` call, src/ppu.rs lines 131-135. -/
def PPU.lyc_check (s : PPU) : PPU :=
  if s.ly = s.lc ∧ s.lcds.testBit 6 then
    { s with interrupts := { s.interrupts with lcd := true } }
  else s

/-- Raise the LCD interrupt when the given LCDS mode-select bit is set,
as done on each mode transition (src/ppu.rs lines 150-152, 173-175,
180-182, 198-200). -/
def PPU.stat_int (bit : Nat) (s : PPU) : PPU :=
  if s.lcds.testBit bit then
    { s with interrupts := { s.interrupts with lcd := true } }
  else s

/-- The OAMScan arm of `PPU::cycle`, src/ppu.rs lines 138-145. -/
def PPU.cycle_oam (s : PPU) : PPU × Bool :=
  (if 80 < s.cycle_count then
     { s with cycle_count := s.cycle_count - 80, ppu_mode := .Draw }
   else s, false)

/-- The Draw arm of `PPU::cycle`, src/ppu.rs lines 146-164: on crossing
172 accumulated cycles, switch to HBlank, raise the LCD interrupt if
MODE_0_SELECT, then render the background/window when in color mode or
LCDC.WINDOW_PRIORITY is set, then sprites when OBJ_ENABLE. -/
def PPU.cycle_draw (s : PPU) : Option (PPU × Bool) :=
  if 172 < s.cycle_count then
    let s2 := PPU.stat_int 3 { s with ppu_mode := .HBlank }
    ((if s2.gb_mode = GBMode.Color ∨ s2.lcdc.testBit 0 then s2.draw_bg
      else some s2).bind fun s3 =>
     (if s3.lcdc.testBit 1 then s3.draw_sprites else some s3).map
       fun s4 => (s4, false))
  else some (s, false)

/-- The HBlank arm of `PPU::cycle`, src/ppu.rs lines 165-188: on
crossing 456 accumulated cycles, increment LY (byte increment) and
subtract 456; if LY exceeds 143 enter VBlank (raising the VBLANK
interrupt, plus LCD if MODE_1_SELECT) and report frame completion,
otherwise return to OAMScan (raising LCD if MODE_2_SELECT). -/
def PPU.cycle_hblank (s : PPU) : PPU × Bool :=
  if 456 < s.cycle_count then
    if 143 < (s.ly + 1) % 256 then
      (PPU.stat_int 4
        { s with
            ly := (s.ly + 1) % 256
            cycle_count := s.cycle_count - 456
            ppu_mode := .VBlank
            interrupts := { s.interrupts with v_blank := true } }, true)
    else
      (PPU.stat_int 5
        { s with
            ly := (s.ly + 1) % 256
            cycle_count := s.cycle_count - 456
            ppu_mode := .OAMScan }, false)
  else (s, false)

/-- The VBlank arm of `PPU::cycle`, src/ppu.rs lines 189-207: on
crossing 456 accumulated cycles, subtract 456 and count a vblanked
line; after the 10th vblanked line reset LY to 0 and return to OAMScan
(raising LCD if MODE_2_SELECT), otherwise increment LY. -/
def PPU.cycle_vblank (s : PPU) : PPU × Bool :=
  if 456 < s.cycle_count then
    if 10 ≤ (s.vblanked_lines + 1) % 4294967296 then
      (PPU.stat_int 5
        { s with
            cycle_count := s.cycle_count - 456
            vblanked_lines := 0
            ly := 0
            ppu_mode := .OAMScan }, false)
    else
      ({ s with
            cycle_count := s.cycle_count - 456
            vblanked_lines := (s.vblanked_lines + 1) % 4294967296
            ly := (s.ly + 1) % 256 }, false)
  else (s, false)

/-- `PPU::cycle`, src/ppu.rs lines 124-209.  Returns `none` when the
Draw arm reaches the panicking `Attributes::from_bits(...).unwrap()` or
an out-of-range `Memory::read`; the u32 cycle counter wraps
(release-mode semantics). -/
def PPU.cycle (s : PPU) (cycles : Nat) : Option (PPU × Bool) :=
  if ¬ s.lcdc.testBit 7 then some (s, false)
  else
    let s1 : PPU := { s with cycle_count := (s.cycle_count + cycles) % 4294967296 }
    let s2 := s1.lyc_check
    match s2.ppu_mode with
    | .OAMScan => some s2.cycle_oam
    | .Draw => s2.cycle_draw
    | .HBlank => some s2.cycle_hblank
    | .VBlank => some s2.cycle_vblank

/-- `Memory::write` for the PPU, src/ppu.rs lines 467-507.  `none`
models the panics: the default arm and the `unwrap`s on
`LCDC::from_bits` / `LCDS::from_bits` (lines 480, 489).  The write to
0xFF44 only prints a message and leaves the state unchanged. -/
def PPU.write (s : PPU) (a v : Nat) : Option PPU :=
  if 0x8000 ≤ a ∧ a ≤ 0x9FFF then
    some (if s.ppu_mode ≠ .Draw then
            { s with ram := fun j =>
                if j = s.ram_bank * 0x2000 + a - 0x8000 then v else s.ram j }
          else s)
  else if 0xFE00 ≤ a ∧ a ≤ 0xFE9F then
    some (if s.ppu_mode ≠ .Draw ∧ s.ppu_mode ≠ .OAMScan then
            { s with oam := fun j => if j = a - 0xFE00 then v else s.oam j }
          else s)
  else if a = 0xFF40 then
    match LCDC.from_bits v with
    | none => none
    | some l =>
      some (if ¬ l.testBit 7 then
              { s with lcdc := l, ly := 0, ppu_mode := .HBlank,
                       frame_buffer := fun _ => 0 }
            else { s with lcdc := l })
  else if a = 0xFF41 then
    match LCDS.from_bits (v &&& 0xFC) with
    | none => none
    | some l => some { s with lcds := l }
  else if a = 0xFF42 then some { s with sy := v }
  else if a = 0xFF43 then some { s with sx := v }
  else if a = 0xFF44 then some s
  else if a = 0xFF45 then some { s with lc := v }
  else if a = 0xFF47 then some { s with bgp := v }
  else if a = 0xFF48 then some { s with op0 := v }
  else if a = 0xFF49 then some { s with op1 := v }
  else if a = 0xFF4A then some { s with wy := v }
  else if a = 0xFF4B then some { s with wx := v }
  else if a = 0xFF4D then some s
  else if a = 0xFF4F then some { s with ram_bank := v &&& 0x01 }
  else if 0xFF60 ≤ a ∧ a ≤ 0xFF6F then some s
  else none

/-- Repeatedly call `PPU.cycle` with a fixed `cycles` argument, counting
the calls up to and including the first one that reports frame
completion (the transition into VBlank).  Returns the accumulated call
count `acc` plus the calls made, and the state after the completing
call; `none` on fuel exhaustion or a panicking call. -/
def PPU.run_to_vblank (cycles : Nat) : Nat → Nat → PPU → Option (Nat × PPU)
  | 0, _, _ => none
  | fuel + 1, acc, s =>
    match PPU.cycle s cycles with
    | none => none
    | some (s1, true) => some (acc + 1, s1)
    | some (s1, false) => PPU.run_to_vblank cycles fuel (acc + 1) s1

/-- Repeatedly call `PPU.cycle` with a fixed `cycles` argument for `fuel`
calls, requiring that no call reports frame completion (and none
panics); returns the final state. -/
def PPU.free_run (cycles : Nat) : Nat → PPU → Option PPU
  | 0, s => some s
  | fuel + 1, s =>
    match PPU.cycle s cycles with
    | some (s1, false) => PPU.free_run cycles fuel s1
    | _ => none

/-- Reset-state DMG PPU with only LCD_ENABLE set. -/
def c1s0 : PPU := { PPU.new .DMG with lcdc := 0x80 }

/-- The state just after the first entry into VBlank when `c1s0` is
stepped by repeated `cycle(8)` calls. -/
def c1s1 : PPU := { c1s0 with cycle_count := 8, ly := 144, ppu_mode := .VBlank,
                              interrupts := ⟨true, false⟩ }

/-- State of the `c1s0` run after 800 `cycle(8)` calls. -/
def c1a1 : PPU := { c1s0 with cycle_count := 424, ly := 11, ppu_mode := .HBlank }

/-- State of the `c1s0` run after 1600 `cycle(8)` calls. -/
def c1a2 : PPU := { c1s0 with cycle_count := 392, ly := 23, ppu_mode := .HBlank }

/-- State of the `c1s0` run after 2400 `cycle(8)` calls. -/
def c1a3 : PPU := { c1s0 with cycle_count := 360, ly := 35, ppu_mode := .HBlank }

/-- State of the `c1s0` run after 3200 `cycle(8)` calls. -/
def c1a4 : PPU := { c1s0 with cycle_count := 328, ly := 47, ppu_mode := .HBlank }

/-- State of the `c1s0` run after 4000 `cycle(8)` calls. -/
def c1a5 : PPU := { c1s0 with cycle_count := 296, ly := 59, ppu_mode := .HBlank }

/-- State of the `c1s0` run after 4800 `cycle(8)` calls. -/
def c1a6 : PPU := { c1s0 with cycle_count := 264, ly := 71, ppu_mode := .HBlank }

/-- State of the `c1s0` run after 5600 `cycle(8)` calls. -/
def c1a7 : PPU := { c1s0 with cycle_count := 232, ly := 83, ppu_mode := .HBlank }

/-- State of the `c1s0` run after 6400 `cycle(8)` calls. -/
def c1a8 : PPU := { c1s0 with cycle_count := 200, ly := 95, ppu_mode := .HBlank }

/-- State of the `c1s0` run after 7200 `cycle(8)` calls. -/
def c1a9 : PPU := { c1s0 with cycle_count := 168, ly := 107, ppu_mode := .Draw }

/-- State of the `c1s0` run after 8000 `cycle(8)` calls. -/
def c1a10 : PPU := { c1s0 with cycle_count := 136, ly := 119, ppu_mode := .Draw }

/-- State of the `c1s0` run after 8800 `cycle(8)` calls. -/
def c1a11 : PPU := { c1s0 with cycle_count := 104, ly := 131, ppu_mode := .Draw }

/-- State of the `c1s0` run after 9600 `cycle(8)` calls. -/
def c1a12 : PPU := { c1s0 with cycle_count := 72, ly := 143, ppu_mode := .Draw }

/-- State of the `c1s0` run after 9648 `cycle(8)` calls. -/
def c1a13 : PPU := { c1s0 with cycle_count := 456, ly := 143, ppu_mode := .HBlank }

/-- State of the run 800 `cycle(8)` calls after the first VBlank entry. -/
def c1b1 : PPU := { c1s1 with cycle_count := 160, ly := 3, ppu_mode := .Draw }

/-- State of the run 1600 `cycle(8)` calls after the first VBlank entry. -/
def c1b2 : PPU := { c1s1 with cycle_count := 128, ly := 15, ppu_mode := .Draw }

/-- State of the run 2400 `cycle(8)` calls after the first VBlank entry. -/
def c1b3 : PPU := { c1s1 with cycle_count := 96, ly := 27, ppu_mode := .Draw }

/-- State of the run 3200 `cycle(8)` calls after the first VBlank entry. -/
def c1b4 : PPU := { c1s1 with cycle_count := 64, ly := 39, ppu_mode := .Draw }

/-- State of the run 4000 `cycle(8)` calls after the first VBlank entry. -/
def c1b5 : PPU := { c1s1 with cycle_count := 32, ly := 51, ppu_mode := .Draw }

/-- State of the run 4800 `cycle(8)` calls after the first VBlank entry. -/
def c1b6 : PPU := { c1s1 with cycle_count := 80, ly := 63, ppu_mode := .OAMScan }

/-- State of the run 5600 `cycle(8)` calls after the first VBlank entry. -/
def c1b7 : PPU := { c1s1 with cycle_count := 48, ly := 75, ppu_mode := .OAMScan }

/-- State of the run 6400 `cycle(8)` calls after the first VBlank entry. -/
def c1b8 : PPU := { c1s1 with cycle_count := 16, ly := 87, ppu_mode := .OAMScan }

/-- State of the run 7200 `cycle(8)` calls after the first VBlank entry. -/
def c1b9 : PPU := { c1s1 with cycle_count := 440, ly := 98, ppu_mode := .HBlank }

/-- State of the run 8000 `cycle(8)` calls after the first VBlank entry. -/
def c1b10 : PPU := { c1s1 with cycle_count := 408, ly := 110, ppu_mode := .HBlank }

/-- State of the run 8800 `cycle(8)` calls after the first VBlank entry. -/
def c1b11 : PPU := { c1s1 with cycle_count := 376, ly := 122, ppu_mode := .HBlank }

/-- State of the run 9600 `cycle(8)` calls after the first VBlank entry. -/
def c1b12 : PPU := { c1s1 with cycle_count := 344, ly := 134, ppu_mode := .HBlank }

/-- State of the run 10217 `cycle(8)` calls after the first VBlank entry. -/
def c1b13 : PPU := { c1s1 with cycle_count := 456, ly := 143, ppu_mode := .HBlank }

/-- The blank-frame scenario state: reset DMG PPU after writing
LCDC = 0x80 and BGP = 0xFC (VRAM is already zero at reset). -/
def c3s0 : PPU := { PPU.new .DMG with lcdc := 0x80, bgp := 0xFC }

/-- The blank-frame scenario run: step `c3s0` by `cycle(456)` calls
until the first call that reports frame completion, and keep the
resulting state. -/
def c3run : Option PPU := (PPU.run_to_vblank 456 500 0 c3s0).map fun p => p.2

/-- `APU::hz_to_cycles`, src/sound/apu.rs lines 167-170: the Game Boy
clock is 4 * 1024 * 1024 T-cycles per second. -/
def APU.hz_to_cycles (hz : Nat) : Nat :=
  4 * 1024 * 1024 / hz

/-- Pulse channel 1 state, src/sound/sc1.rs lines 4-19.  The duty cycle
is stored as its 2-bit `DutyCycle` bitfield value. -/
structure SC1 where
  dac_enabled : Bool
  sweep_pace : Nat
  negative_direction : Bool
  sweep_step : Nat
  duty_cycle : Nat
  length_timer : Nat
  volume : Nat
  positive_envelope : Bool
  envelope_pace : Nat
  period : Nat
  trigger : Bool
  length_enabled : Bool
  length_cycle_count : Nat
  sweep_cycle_count : Nat
deriving DecidableEq

/-- `SC1::new`, src/sound/sc1.rs lines 22-39 (`DutyCycle::QUARTER` has
bit value 1). -/
def SC1.new : SC1 where
  dac_enabled := false
  sweep_pace := 0
  negative_direction := false
  sweep_step := 0
  duty_cycle := 1
  length_timer := 0
  volume := 0
  positive_envelope := false
  envelope_pace := 0
  period := 0
  trigger := false
  length_enabled := false
  length_cycle_count := 0
  sweep_cycle_count := 0

/-- `SC1::clear`, src/sound/sc1.rs lines 41-54.  Note the two cycle
counters are not reset by the source. -/
def SC1.clear (s : SC1) : SC1 :=
  { s with
      dac_enabled := false
      sweep_pace := 0
      negative_direction := false
      sweep_step := 0
      duty_cycle := 1
      length_timer := 0
      volume := 0
      positive_envelope := false
      envelope_pace := 0
      period := 0
      trigger := false
      length_enabled := false }

/-- `SC1::cycle`, src/sound/sc1.rs lines 56-97.  The u32 length counter
wraps; the u8 length timer wraps (release semantics).  The sweep block
is commented out in the source and therefore absent here. -/
def SC1.cycle (s : SC1) (cycles : Nat) : SC1 :=
  if s.length_enabled then
    if APU.hz_to_cycles 256 ≤ (s.length_cycle_count + cycles) % 4294967296 then
      if 64 ≤ s.length_timer then
        { s with length_cycle_count := 0, dac_enabled := false,
                 length_enabled := false }
      else
        { s with length_cycle_count := 0,
                 length_timer := (s.length_timer + 1) % 256 }
    else { s with length_cycle_count := (s.length_cycle_count + cycles) % 4294967296 }
  else s

/-- `Memory::read` for SC1, src/sound/sc1.rs lines 101-115. -/
def SC1.read (s : SC1) (a : Nat) : Nat :=
  if a = 0xFF10 then
    ((s.sweep_pace &&& 0x07) <<< 4) ||| ((if s.negative_direction then 1 else 0) <<< 3) |||
      (s.sweep_step &&& 0x07) ||| 0x80
  else if a = 0xFF11 then (s.duty_cycle <<< 6) ||| 0x3F
  else if a = 0xFF12 then
    ((s.volume &&& 0x0F) <<< 4) ||| ((if s.positive_envelope then 1 else 0) <<< 3) |||
      (s.envelope_pace &&& 0x07)
  else if a = 0xFF13 then 0xFF
  else if a = 0xFF14 then ((if s.length_enabled then 1 else 0) <<< 6) ||| 0xBF
  else 0xFF

/-- `Memory::write` for SC1, src/sound/sc1.rs lines 117-154.  `none`
models the panicking default arm (the APU never routes such an
address). -/
def SC1.write (s : SC1) (a v : Nat) : Option SC1 :=
  if a = 0xFF10 then
    some { s with
        sweep_pace := (v &&& 0x70) >>> 4
        negative_direction := (v &&& 0x08) >>> 3 ≠ 0
        sweep_step := v &&& 0x07 }
  else if a = 0xFF11 then
    some { s with duty_cycle := (v >>> 6) &&& 0x03, length_timer := v &&& 0x3F }
  else if a = 0xFF12 then
    let s1 : SC1 := { s with
        volume := (v &&& 0xF0) >>> 4
        positive_envelope := (v &&& 0x08) >>> 3 ≠ 0
        envelope_pace := v &&& 0x07 }
    some (if s1.read 0xFF12 &&& 0xF8 ≠ 0 then { s1 with dac_enabled := true }
          else s1)
  else if a = 0xFF13 then
    some { s with period := (s.period &&& 0xFF00) ||| (v &&& 0xFF) }
  else if a = 0xFF14 then
    some { s with
        trigger := (v &&& 0x80) >>> 7 ≠ 0
        length_enabled := (v &&& 0x40) >>> 6 ≠ 0
        period := (s.period &&& 0x00FF) ||| ((v &&& 0x07) <<< 8) }
  else none

/-- Pulse channel 2 state.  Modelled from the spec: src/sound/sc2.rs is
not among the provided sources; spec sections 3 and 4.4 describe it as
identical to channel 1 without the sweep unit, on registers
0xFF15-0xFF19 with 0xFF15 inert. -/
structure SC2 where
  dac_enabled : Bool
  duty_cycle : Nat
  length_timer : Nat
  volume : Nat
  positive_envelope : Bool
  envelope_pace : Nat
  period : Nat
  trigger : Bool
  length_enabled : Bool
  length_cycle_count : Nat
deriving DecidableEq

/-- Modelled from the spec: channel 2 reset state (defaults as ch1). -/
def SC2.new : SC2 where
  dac_enabled := false
  duty_cycle := 1
  length_timer := 0
  volume := 0
  positive_envelope := false
  envelope_pace := 0
  period := 0
  trigger := false
  length_enabled := false
  length_cycle_count := 0

/-- Modelled from the spec: channel 2 `clear`, as ch1 without sweep. -/
def SC2.clear (s : SC2) : SC2 :=
  { s with
      dac_enabled := false
      duty_cycle := 1
      length_timer := 0
      volume := 0
      positive_envelope := false
      envelope_pace := 0
      period := 0
      trigger := false
      length_enabled := false }

/-- Modelled from the spec: channel 2 length ticking at 256 Hz up to
64, as channel 1. -/
def SC2.cycle (s : SC2) (cycles : Nat) : SC2 :=
  if s.length_enabled then
    if APU.hz_to_cycles 256 ≤ (s.length_cycle_count + cycles) % 4294967296 then
      if 64 ≤ s.length_timer then
        { s with length_cycle_count := 0, dac_enabled := false,
                 length_enabled := false }
      else
        { s with length_cycle_count := 0,
                 length_timer := (s.length_timer + 1) % 256 }
    else { s with length_cycle_count := (s.length_cycle_count + cycles) % 4294967296 }
  else s

/-- Modelled from the spec: channel 2 register reads (0xFF15 inert,
otherwise as ch1 shifted to 0xFF16-0xFF19). -/
def SC2.read (s : SC2) (a : Nat) : Nat :=
  if a = 0xFF16 then (s.duty_cycle <<< 6) ||| 0x3F
  else if a = 0xFF17 then
    ((s.volume &&& 0x0F) <<< 4) ||| ((if s.positive_envelope then 1 else 0) <<< 3) |||
      (s.envelope_pace &&& 0x07)
  else if a = 0xFF19 then ((if s.length_enabled then 1 else 0) <<< 6) ||| 0xBF
  else 0xFF

/-- Modelled from the spec: channel 2 register writes, as ch1 on
0xFF16-0xFF19. -/
def SC2.write (s : SC2) (a v : Nat) : SC2 :=
  if a = 0xFF16 then
    { s with duty_cycle := (v >>> 6) &&& 0x03, length_timer := v &&& 0x3F }
  else if a = 0xFF17 then
    let s1 : SC2 := { s with
        volume := (v &&& 0xF0) >>> 4
        positive_envelope := (v &&& 0x08) >>> 3 ≠ 0
        envelope_pace := v &&& 0x07 }
    if s1.read 0xFF17 &&& 0xF8 ≠ 0 then { s1 with dac_enabled := true } else s1
  else if a = 0xFF18 then
    { s with period := (s.period &&& 0xFF00) ||| (v &&& 0xFF) }
  else if a = 0xFF19 then
    { s with
        trigger := (v &&& 0x80) >>> 7 ≠ 0
        length_enabled := (v &&& 0x40) >>> 6 ≠ 0
        period := (s.period &&& 0x00FF) ||| ((v &&& 0x07) <<< 8) }
  else s

/-- Wave channel state.  Modelled from the spec: src/sound/sc3.rs is
not among the provided sources; spec section 3 gives the fields and
section 4.4 the register map (0xFF1A-0xFF1E, wave RAM 0xFF30-0xFF3F).
The 16-byte wavetable is a total function from index to byte. -/
structure SC3 where
  dac_enabled : Bool
  length_timer : Nat
  output_level : Nat
  period : Nat
  trigger : Bool
  length_enabled : Bool
  length_cycle_count : Nat
  wave_ram : Nat → Nat

/-- Modelled from the spec: wave channel reset state. -/
def SC3.new : SC3 where
  dac_enabled := false
  length_timer := 0
  output_level := 0
  period := 0
  trigger := false
  length_enabled := false
  length_cycle_count := 0
  wave_ram := fun _ => 0

/-- Modelled from the spec: wave channel `clear` (wave RAM survives the
master disable). -/
def SC3.clear (s : SC3) : SC3 :=
  { s with
      dac_enabled := false
      length_timer := 0
      output_level := 0
      period := 0
      trigger := false
      length_enabled := false }

/-- Modelled from the spec: wave channel length at 256 Hz with maximum
256. -/
def SC3.cycle (s : SC3) (cycles : Nat) : SC3 :=
  if s.length_enabled then
    if APU.hz_to_cycles 256 ≤ (s.length_cycle_count + cycles) % 4294967296 then
      if 256 ≤ s.length_timer then
        { s with length_cycle_count := 0, dac_enabled := false,
                 length_enabled := false }
      else
        { s with length_cycle_count := 0,
                 length_timer := (s.length_timer + 1) % 256 }
    else { s with length_cycle_count := (s.length_cycle_count + cycles) % 4294967296 }
  else s

/-- Modelled from the spec: wave channel reads (enable bit 7 of 0xFF1A,
output level bits 6:5 of 0xFF1C, length enable bit 6 of 0xFF1E, wave
RAM bytes at 0xFF30-0xFF3F; reserved bits read as ones). -/
def SC3.read (s : SC3) (a : Nat) : Nat :=
  if a = 0xFF1A then ((if s.dac_enabled then 1 else 0) <<< 7) ||| 0x7F
  else if a = 0xFF1C then ((s.output_level &&& 0x03) <<< 5) ||| 0x9F
  else if a = 0xFF1E then ((if s.length_enabled then 1 else 0) <<< 6) ||| 0xBF
  else if 0xFF30 ≤ a ∧ a ≤ 0xFF3F then s.wave_ram (a - 0xFF30)
  else 0xFF

/-- Modelled from the spec: wave channel writes (enable at 0xFF1A bit 7,
8-bit length timer at 0xFF1B, output level at 0xFF1C bits 6:5, period
low at 0xFF1D, period high / length enable / trigger at 0xFF1E, wave
RAM at 0xFF30-0xFF3F). -/
def SC3.write (s : SC3) (a v : Nat) : SC3 :=
  if a = 0xFF1A then { s with dac_enabled := (v &&& 0x80) >>> 7 ≠ 0 }
  else if a = 0xFF1B then { s with length_timer := v &&& 0xFF }
  else if a = 0xFF1C then { s with output_level := (v >>> 5) &&& 0x03 }
  else if a = 0xFF1D then
    { s with period := (s.period &&& 0xFF00) ||| (v &&& 0xFF) }
  else if a = 0xFF1E then
    { s with
        trigger := (v &&& 0x80) >>> 7 ≠ 0
        length_enabled := (v &&& 0x40) >>> 6 ≠ 0
        period := (s.period &&& 0x00FF) ||| ((v &&& 0x07) <<< 8) }
  else if 0xFF30 ≤ a ∧ a ≤ 0xFF3F then
    { s with wave_ram := fun j => if j = a - 0xFF30 then v else s.wave_ram j }
  else s

/-- Noise channel state.  Modelled from the spec: src/sound/sc4.rs is
not among the provided sources; spec sections 3 and 4.4 list its
fields and registers 0xFF20-0xFF23.  `final_volume` and `frequency`
are the values the APU exports to the synth sink. -/
structure SC4 where
  dac_enabled : Bool
  length_timer : Nat
  volume : Nat
  positive_envelope : Bool
  envelope_pace : Nat
  clock_shift : Nat
  lfsr_width_7bit : Bool
  clock_divider : Nat
  lfsr : Nat
  trigger : Bool
  length_enabled : Bool
  final_volume : Nat
  frequency : Nat
  length_cycle_count : Nat
deriving DecidableEq

/-- Modelled from the spec: noise channel reset state. -/
def SC4.new : SC4 where
  dac_enabled := false
  length_timer := 0
  volume := 0
  positive_envelope := false
  envelope_pace := 0
  clock_shift := 0
  lfsr_width_7bit := false
  clock_divider := 0
  lfsr := 0
  trigger := false
  length_enabled := false
  final_volume := 0
  frequency := 0
  length_cycle_count := 0

/-- Modelled from the spec: noise channel `clear`. -/
def SC4.clear (s : SC4) : SC4 :=
  { s with
      dac_enabled := false
      length_timer := 0
      volume := 0
      positive_envelope := false
      envelope_pace := 0
      clock_shift := 0
      lfsr_width_7bit := false
      clock_divider := 0
      trigger := false
      length_enabled := false
      final_volume := 0
      frequency := 0 }

/-- Modelled from the spec: noise channel length at 256 Hz with
maximum 64. -/
def SC4.cycle (s : SC4) (cycles : Nat) : SC4 :=
  if s.length_enabled then
    if APU.hz_to_cycles 256 ≤ (s.length_cycle_count + cycles) % 4294967296 then
      if 64 ≤ s.length_timer then
        { s with length_cycle_count := 0, dac_enabled := false,
                 length_enabled := false }
      else
        { s with length_cycle_count := 0,
                 length_timer := (s.length_timer + 1) % 256 }
    else { s with length_cycle_count := (s.length_cycle_count + cycles) % 4294967296 }
  else s

/-- Modelled from the spec: noise channel reads. -/
def SC4.read (s : SC4) (a : Nat) : Nat :=
  if a = 0xFF21 then
    ((s.volume &&& 0x0F) <<< 4) ||| ((if s.positive_envelope then 1 else 0) <<< 3) |||
      (s.envelope_pace &&& 0x07)
  else if a = 0xFF22 then
    ((s.clock_shift &&& 0x0F) <<< 4) ||| ((if s.lfsr_width_7bit then 1 else 0) <<< 3) |||
      (s.clock_divider &&& 0x07)
  else if a = 0xFF23 then ((if s.length_enabled then 1 else 0) <<< 6) ||| 0xBF
  else 0xFF

/-- Modelled from the spec: noise channel writes (length at 0xFF20,
envelope at 0xFF21 with the dac rule, randomness at 0xFF22, control at
0xFF23). -/
def SC4.write (s : SC4) (a v : Nat) : SC4 :=
  if a = 0xFF20 then { s with length_timer := v &&& 0x3F }
  else if a = 0xFF21 then
    let s1 : SC4 := { s with
        volume := (v &&& 0xF0) >>> 4
        positive_envelope := (v &&& 0x08) >>> 3 ≠ 0
        envelope_pace := v &&& 0x07 }
    if s1.read 0xFF21 &&& 0xF8 ≠ 0 then { s1 with dac_enabled := true } else s1
  else if a = 0xFF22 then
    { s with
        clock_shift := (v &&& 0xF0) >>> 4
        lfsr_width_7bit := (v &&& 0x08) >>> 3 ≠ 0
        clock_divider := v &&& 0x07 }
  else if a = 0xFF23 then
    { s with
        trigger := (v &&& 0x80) >>> 7 ≠ 0
        length_enabled := (v &&& 0x40) >>> 6 ≠ 0 }
  else s

/-- APU state, src/sound/apu.rs lines 9-23.  The `Synth` sink
(src/sound/synth.rs, not among the provided sources) receives
floating-point parameter values and never feeds back into the APU
state, so it is not modelled; `panning` is the raw `Panning` byte. -/
structure APU where
  audio_enabled : Bool
  is_ch_4_on : Bool
  is_ch_3_on : Bool
  is_ch_2_on : Bool
  is_ch_1_on : Bool
  left_volume : Nat
  right_volume : Nat
  panning : Nat
  sc1 : SC1
  sc2 : SC2
  sc3 : SC3
  sc4 : SC4

/-- `APU::new`, src/sound/apu.rs lines 40-58. -/
def APU.new : APU where
  audio_enabled := true
  is_ch_4_on := false
  is_ch_3_on := false
  is_ch_2_on := false
  is_ch_1_on := false
  left_volume := 0
  right_volume := 0
  panning := 0
  sc1 := SC1.new
  sc2 := SC2.new
  sc3 := SC3.new
  sc4 := SC4.new

/-- `APU::cycle`, src/sound/apu.rs lines 60-165: advances the four
channels; the remainder of the source function only computes
floating-point parameters for the synth sink, which has no effect on
the APU state and is therefore not modelled. -/
def APU.cycle (s : APU) (cycles : Nat) : APU :=
  { s with
      sc1 := s.sc1.cycle cycles
      sc2 := s.sc2.cycle cycles
      sc3 := s.sc3.cycle cycles
      sc4 := s.sc4.cycle cycles }

/-- `Memory::read` for the APU, src/sound/apu.rs lines 174-194.  Match
arms are tried in source order, so 0xFF24-0xFF26 take their dedicated
arms before the later 0xFF20..=0xFF24 arm. -/
def APU.read (s : APU) (a : Nat) : Nat :=
  if a = 0xFF26 then
    ((if s.audio_enabled then 1 else 0) <<< 7) |||
      ((if s.is_ch_4_on then 1 else 0) <<< 3) |||
      ((if s.is_ch_3_on then 1 else 0) <<< 2) |||
      ((if s.is_ch_2_on then 1 else 0) <<< 1) |||
      (if s.is_ch_1_on then 1 else 0) ||| 0x70
  else if a = 0xFF25 then s.panning
  else if a = 0xFF24 then
    ((s.left_volume &&& 0x07) <<< 4) ||| (s.right_volume &&& 0x07)
  else if 0xFF10 ≤ a ∧ a ≤ 0xFF14 then s.sc1.read a
  else if 0xFF15 ≤ a ∧ a ≤ 0xFF19 then s.sc2.read a
  else if 0xFF1A ≤ a ∧ a ≤ 0xFF1E then s.sc3.read a
  else if 0xFF30 ≤ a ∧ a ≤ 0xFF3F then s.sc3.read a
  else if 0xFF20 ≤ a ∧ a ≤ 0xFF24 then s.sc4.read a
  else 0xFF

/-- First trigger block of the `APU::write` postlude, src/sound/apu.rs
lines 243-248: consume `sc1.trigger` and latch the channel-on flag if
its DAC is enabled.  (The `dac_enabled` test of the source reads the
state after the trigger flag is cleared, which leaves `dac_enabled`
unchanged, so the test is written against `s` directly.) -/
def APU.trig1 (s : APU) : APU :=
  if s.sc1.trigger then
    if s.sc1.dac_enabled then
      { s with sc1 := { s.sc1 with trigger := false }, is_ch_1_on := true }
    else { s with sc1 := { s.sc1 with trigger := false } }
  else s

/-- Second trigger block, src/sound/apu.rs lines 250-255. -/
def APU.trig2 (s : APU) : APU :=
  if s.sc2.trigger then
    if s.sc2.dac_enabled then
      { s with sc2 := { s.sc2 with trigger := false }, is_ch_2_on := true }
    else { s with sc2 := { s.sc2 with trigger := false } }
  else s

/-- Third trigger block, src/sound/apu.rs lines 257-262. -/
def APU.trig3 (s : APU) : APU :=
  if s.sc3.trigger then
    if s.sc3.dac_enabled then
      { s with sc3 := { s.sc3 with trigger := false }, is_ch_3_on := true }
    else { s with sc3 := { s.sc3 with trigger := false } }
  else s

/-- Fourth trigger block, src/sound/apu.rs lines 264-270: the noise
channel also resets its LFSR to 0. -/
def APU.trig4 (s : APU) : APU :=
  if s.sc4.trigger then
    if s.sc4.dac_enabled then
      { s with sc4 := { s.sc4 with trigger := false, lfsr := 0 },
               is_ch_4_on := true }
    else { s with sc4 := { s.sc4 with trigger := false, lfsr := 0 } }
  else s

/-- The master-disable clearing at the end of `APU::write`,
src/sound/apu.rs lines 272-288. -/
def APU.master_clear (set_apu_control : Bool) (s : APU) : APU :=
  if set_apu_control ∧ ¬ s.audio_enabled then
    { s with
        is_ch_1_on := false
        is_ch_2_on := false
        is_ch_3_on := false
        is_ch_4_on := false
        left_volume := 0
        right_volume := 0
        panning := 0
        sc1 := s.sc1.clear
        sc2 := s.sc2.clear
        sc3 := s.sc3.clear
        sc4 := s.sc4.clear }
  else s

/-- The trigger inspection and master-disable clearing that run after
the dispatch of every `APU::write`, src/sound/apu.rs lines 243-288. -/
def APU.after_write (set_apu_control : Bool) (s : APU) : APU :=
  APU.master_clear set_apu_control (APU.trig4 (APU.trig3 (APU.trig2 (APU.trig1 s))))

/-- The address dispatch of `APU::write`, src/sound/apu.rs lines
199-241.  Arms are tried in source order, so 0xFF24-0xFF26 take their
dedicated arms first; 0xFF15 and 0xFF27-0xFF2F fall through to the
silent default.  All channel writes except wave RAM are gated on the
master enable. -/
def APU.write_dispatch (s : APU) (a v : Nat) : Option APU :=
  if a = 0xFF26 then some { s with audio_enabled := (v >>> 7) = 1 }
  else if a = 0xFF25 then
    some (if s.audio_enabled then { s with panning := v &&& 0xFF } else s)
  else if a = 0xFF24 then
    some (if s.audio_enabled then
        { s with left_volume := v >>> 4, right_volume := v &&& 0x07 }
      else s)
  else if 0xFF10 ≤ a ∧ a ≤ 0xFF14 then
    if s.audio_enabled then (s.sc1.write a v).map fun c => { s with sc1 := c }
    else some s
  else if 0xFF16 ≤ a ∧ a ≤ 0xFF19 then
    some (if s.audio_enabled then { s with sc2 := s.sc2.write a v } else s)
  else if 0xFF1A ≤ a ∧ a ≤ 0xFF1E then
    some (if s.audio_enabled then { s with sc3 := s.sc3.write a v } else s)
  else if 0xFF30 ≤ a ∧ a ≤ 0xFF3F then some { s with sc3 := s.sc3.write a v }
  else if 0xFF20 ≤ a ∧ a ≤ 0xFF24 then
    some (if s.audio_enabled then { s with sc4 := s.sc4.write a v } else s)
  else some s

/-- `Memory::write` for the APU, src/sound/apu.rs lines 196-289:
dispatch by address, then the trigger/master-control post-processing. -/
def APU.write (s : APU) (a v : Nat) : Option APU :=
  (APU.write_dispatch s a v).map (APU.after_write (a = 0xFF26))

def PPU.SameCtl (s t : PPU) : Prop :=
  t.ppu_mode = s.ppu_mode ∧ t.ly = s.ly ∧
  t.vblanked_lines = s.vblanked_lines ∧ t.lcds = s.lcds

/-- The control-field invariant maintained by every reachable PPU state:
in VBlank, LY lies in [144, 144 + vblanked_lines]; outside VBlank LY is
at most 143; at most 9 lines have been vblanked; the stored STAT bits
fit the sanitising write mask (bits 2-6). -/
def PPU.Inv (s : PPU) : Prop :=
  (s.ppu_mode = .VBlank → 144 ≤ s.ly ∧ s.ly ≤ 144 + s.vblanked_lines) ∧
  (s.ppu_mode ≠ .VBlank → s.ly ≤ 143) ∧
  s.vblanked_lines ≤ 9 ∧
  s.lcds &&& 0x7C = s.lcds

/-- PPU states reachable from `PPU::new` through the public interface
(non-panicking `cycle` and `write` calls). -/
inductive PPU.Reachable : PPU → Prop
  | init (m : GBMode) : PPU.Reachable (PPU.new m)
  | cycle {s s1 : PPU} {n : Nat} {b : Bool} : PPU.Reachable s →
      PPU.cycle s n = some (s1, b) → PPU.Reachable s1
  | write {s s1 : PPU} {a v : Nat} : PPU.Reachable s →
      PPU.write s a v = some s1 → PPU.Reachable s1

/-- The reachable state used to witness claim C2: a reset DMG PPU after
writing LCDC = 0x80. -/
def c2s : PPU := { PPU.new .DMG with lcdc := 0x80 }

/-- The state after `cycle(1)` on `c2s`. -/
def c2s1 : PPU := { c2s with cycle_count := 1 }

/-- The PPU state used to refute claim C6: LC = 5 and a stored STAT
byte with bit 2 set (written as 0x04, which the mask 0b1111_1100
preserves). -/
def c6s : PPU := { PPU.new .DMG with lc := 5, lcds := 0x04 }

/-- All four transient trigger flags are clear. -/
def APU.TrigOff (s : APU) : Prop :=
  s.sc1.trigger = false ∧ s.sc2.trigger = false ∧
  s.sc3.trigger = false ∧ s.sc4.trigger = false

/-- All four NR52 channel-on flags are clear. -/
def APU.FlagsOff (s : APU) : Prop :=
  s.is_ch_1_on = false ∧ s.is_ch_2_on = false ∧
  s.is_ch_3_on = false ∧ s.is_ch_4_on = false

/-- The APU invariant: between calls the transient trigger flags are
clear, and while the master enable is off all channel-on flags are
clear. -/
def APU.Inv (s : APU) : Prop :=
  APU.TrigOff s ∧ (s.audio_enabled = false → APU.FlagsOff s)

/-- APU states reachable from `APU::new` through `cycle` and
non-panicking `write` calls. -/
inductive APU.Reachable : APU → Prop
  | init : APU.Reachable APU.new
  | cycle {s : APU} {n : Nat} : APU.Reachable s → APU.Reachable (s.cycle n)
  | write {s s1 : APU} {a v : Nat} : APU.Reachable s →
      APU.write s a v = some s1 → APU.Reachable s1

/-- The APU state reached from reset by writing 0x00 to NR52: master
audio disabled, everything else at its reset value. -/
def c7s : APU := { APU.new with audio_enabled := false }

/-- The NR52 bit set by write 0xFF14/0xC0 after enabling channel 1's
DAC, followed by two 16384-cycle steps that run the length timer from
63 past its maximum. -/
def c4run : Option APU :=
  (APU.write APU.new 0xFF12 0xF0).bind fun s1 =>
  (APU.write s1 0xFF11 0x3F).bind fun s2 =>
  (APU.write s2 0xFF14 0xC0).map fun s3 =>
  APU.cycle (APU.cycle s3 16384) 16384

/-- The length-timeout scenario for channel 1 in isolation: length
enabled with the timer already at its maximum. -/
def c4s : SC1 := { SC1.new with length_enabled := true, length_timer := 64 }

/-- `ROMOnly` cartridge state, src/mbc/rom_only.rs lines 4-6: a ROM
image. -/
structure ROMOnly where
  rom : List Nat

/-- `ROMOnly::new`, src/mbc/rom_only.rs lines 22-26. -/
def ROMOnly.new (rom : List Nat) : ROMOnly := ⟨rom⟩

/-- `Memory::read` for `ROMOnly`, src/mbc/rom_only.rs lines 9-14.
`none` models both the panicking default arm (addresses above 0x7FFF)
and the panic of `self.rom[a]` when the image is shorter than the
address. -/
def ROMOnly.read (s : ROMOnly) (a : Nat) : Option Nat :=
  if a ≤ 0x7FFF then s.rom.get? a else none

/-- `Memory::write` for `ROMOnly`, src/mbc/rom_only.rs line 16: a
no-op. -/
def ROMOnly.write (s : ROMOnly) (a v : Nat) : ROMOnly := s

theorem PPU.sameCtl_self {s : PPU} : PPU.SameCtl s s :=
  ⟨rfl, rfl, rfl, rfl⟩

theorem PPU.sameCtl_trans {s t u : PPU} (h1 : PPU.SameCtl s t)
    (h2 : PPU.SameCtl t u) : PPU.SameCtl s u := by
  obtain ⟨a1, b1, c1, d1⟩ := h1
  obtain ⟨a2, b2, c2, d2⟩ := h2
  exact ⟨a2.trans a1, b2.trans b1, c2.trans c1, d2.trans d1⟩

theorem PPU.draw_bg_pixel_ctl {s t : PPU} {tdb wx : Nat} {iw : Bool}
    {py x : Nat} (h : PPU.draw_bg_pixel s tdb wx iw py x = some t) :
    PPU.SameCtl s t := by
  unfold PPU.draw_bg_pixel at h
  rw [Option.map_eq_some'] at h
  obtain ⟨attr, hA, ht⟩ := h
  rw [← ht]
  exact ⟨rfl, rfl, rfl, rfl⟩

theorem PPU.draw_sprite_pixel_ctl (s : PPU) (attr px : Nat)
    (tyd : Nat × Nat) (x : Nat) :
    PPU.SameCtl s (PPU.draw_sprite_pixel s attr px tyd x) := by
  refine ⟨?_, ?_, ?_, ?_⟩ <;>
    simp only [PPU.draw_sprite_pixel, PPU.set_rgb, apply_ite PPU.ppu_mode,
      apply_ite PPU.ly, apply_ite PPU.vblanked_lines, apply_ite PPU.lcds,
      ite_self]

theorem PPU.foldlM_ctl {f : PPU → Nat → Option PPU}
    (hf : ∀ s x t, f s x = some t → PPU.SameCtl s t) :
    ∀ (l : List Nat) (s t : PPU), List.foldlM f s l = some t →
      PPU.SameCtl s t := by
  intro l
  induction l with
  | nil =>
    intro s t h
    have h2 : (some s : Option PPU) = some t := h
    cases h2
    exact PPU.sameCtl_self
  | cons x xs ih =>
    intro s t h
    rw [List.foldlM_cons] at h
    rcases hx : f s x with _ | s1 <;> rw [hx] at h
    · exact Option.noConfusion h
    · exact PPU.sameCtl_trans (hf s x s1 hx) (ih s1 t h)

theorem PPU.draw_bg_ctl {s t : PPU} (h : s.draw_bg = some t) :
    PPU.SameCtl s t := by
  unfold PPU.draw_bg at h
  exact PPU.foldlM_ctl (fun s2 x t2 hx => PPU.draw_bg_pixel_ctl hx) _ s t h

theorem PPU.foldl_ctl {f : PPU → Nat → PPU}
    (hf : ∀ s x, PPU.SameCtl s (f s x)) :
    ∀ (l : List Nat) (s : PPU), PPU.SameCtl s (List.foldl f s l) := by
  intro l
  induction l with
  | nil => intro s; exact PPU.sameCtl_self
  | cons x xs ih =>
    intro s
    rw [List.foldl_cons]
    exact PPU.sameCtl_trans (hf s x) (ih (f s x))

theorem PPU.draw_sprite_reads_ctl {s t : PPU} {o0 o1 o2 o3 : Option Nat}
    {g : Nat → Nat → Nat → Nat → PPU}
    (hg : ∀ b0 b1 b2 b3, PPU.SameCtl s (g b0 b1 b2 b3))
    (h : (o0.bind fun b0 => o1.bind fun b1 => o2.bind fun b2 =>
          (o3.map fun b3 => g b0 b1 b2 b3)) = some t) :
    PPU.SameCtl s t := by
  rcases o0 with _ | b0
  · exact Option.noConfusion h
  rcases o1 with _ | b1
  · exact Option.noConfusion h
  rcases o2 with _ | b2
  · exact Option.noConfusion h
  rcases o3 with _ | b3
  · exact Option.noConfusion h
  have h2 : g b0 b1 b2 b3 = t := Option.some.inj h
  rw [← h2]
  exact hg b0 b1 b2 b3

set_option maxHeartbeats 2000000 in
theorem PPU.draw_sprite_ctl {s t : PPU} {i : Nat}
    (h : PPU.draw_sprite s i = some t) : PPU.SameCtl s t := by
  refine PPU.draw_sprite_reads_ctl (fun b0 b1 b2 b3 => ?_) h
  lift_lets
  extract_lets py px tile_number tile_attributes culled
  split_ifs <;>
    first
      | exact PPU.sameCtl_self
      | (lift_lets
         intros
         exact PPU.foldl_ctl (fun s2 x => PPU.draw_sprite_pixel_ctl s2 _ _ _ x) _ s)

theorem PPU.draw_sprites_ctl {s t : PPU} (h : s.draw_sprites = some t) :
    PPU.SameCtl s t := by
  unfold PPU.draw_sprites at h
  exact PPU.foldlM_ctl (fun s2 i t2 hx => PPU.draw_sprite_ctl hx) _ s t h

theorem PPU.lyc_check_ctl (s : PPU) : PPU.SameCtl s s.lyc_check := by
  unfold PPU.lyc_check
  split_ifs <;> exact ⟨rfl, rfl, rfl, rfl⟩

theorem PPU.Inv_of_sameCtl {s t : PPU} (h : PPU.SameCtl s t)
    (hI : PPU.Inv s) : PPU.Inv t := by
  obtain ⟨a, b, c, d⟩ := h
  unfold PPU.Inv at hI ⊢
  rw [a, b, c, d]
  exact hI

theorem PPU.stat_int_ctl (bit : Nat) (s : PPU) :
    PPU.SameCtl s (PPU.stat_int bit s) := by
  unfold PPU.stat_int
  split_ifs <;> exact ⟨rfl, rfl, rfl, rfl⟩

theorem PPU.inv_stat_int {bit : Nat} {s : PPU} (hI : PPU.Inv s) :
    PPU.Inv (PPU.stat_int bit s) :=
  PPU.Inv_of_sameCtl (PPU.stat_int_ctl bit s) hI

theorem PPU.inv_cycle_oam {s : PPU} (hm : s.ppu_mode = .OAMScan)
    (hI : PPU.Inv s) : PPU.Inv (PPU.cycle_oam s).1 := by
  obtain ⟨h1, h2, h3, h4⟩ := hI
  have hly : s.ly ≤ 143 := h2 (by rw [hm]; intro hc; cases hc)
  unfold PPU.cycle_oam
  split_ifs
  · exact ⟨fun hc => (nomatch hc), fun _ => hly, h3, h4⟩
  · exact ⟨h1, h2, h3, h4⟩

theorem PPU.inv_cycle_hblank {s : PPU} (hm : s.ppu_mode = .HBlank)
    (hI : PPU.Inv s) : PPU.Inv (PPU.cycle_hblank s).1 := by
  obtain ⟨h1, h2, h3, h4⟩ := hI
  have hly : s.ly ≤ 143 := h2 (by rw [hm]; intro hc; cases hc)
  have hmod : (s.ly + 1) % 256 = s.ly + 1 := Nat.mod_eq_of_lt (by omega)
  unfold PPU.cycle_hblank
  split_ifs with hc1 hc2
  · simp only [hmod] at hc2
    refine PPU.inv_stat_int ⟨fun _ => ?_, fun hne => absurd rfl hne, h3, h4⟩
    simp only [hmod]
    omega
  · simp only [hmod] at hc2
    refine PPU.inv_stat_int ⟨fun hc => (nomatch hc), fun _ => ?_, h3, h4⟩
    simp only [hmod]
    omega
  · exact ⟨h1, h2, h3, h4⟩

theorem PPU.inv_cycle_vblank {s : PPU} (hm : s.ppu_mode = .VBlank)
    (hI : PPU.Inv s) : PPU.Inv (PPU.cycle_vblank s).1 := by
  obtain ⟨h1, h2, h3, h4⟩ := hI
  obtain ⟨hge, hle⟩ := h1 hm
  have hmod32 : (s.vblanked_lines + 1) % 4294967296 = s.vblanked_lines + 1 :=
    Nat.mod_eq_of_lt (by omega)
  have hmod : (s.ly + 1) % 256 = s.ly + 1 := Nat.mod_eq_of_lt (by omega)
  unfold PPU.cycle_vblank
  split_ifs with hc1 hc2
  · exact PPU.inv_stat_int
      ⟨fun hc => (nomatch hc), fun _ => Nat.zero_le 143, Nat.zero_le 9, h4⟩
  · simp only [hmod32] at hc2
    refine ⟨fun _ => ?_, fun hne => absurd hm hne, ?_, h4⟩
    · simp only [hmod, hmod32]
      omega
    · simp only [hmod32]
      omega
  · exact ⟨h1, h2, h3, h4⟩

theorem PPU.draw_phase_ctl {s2 t : PPU} {b : Bool}
    (h : ((if s2.gb_mode = GBMode.Color ∨ s2.lcdc.testBit 0 then s2.draw_bg
           else some s2).bind fun s3 =>
          (if s3.lcdc.testBit 1 then s3.draw_sprites else some s3).map
            fun s4 => (s4, false)) = some (t, b)) :
    PPU.SameCtl s2 t := by
  rcases hbg : (if s2.gb_mode = GBMode.Color ∨ s2.lcdc.testBit 0 then
      s2.draw_bg else some s2) with _ | s3
  · rw [hbg] at h
    exact Option.noConfusion h
  · rw [hbg] at h
    have hc23 : PPU.SameCtl s2 s3 := by
      split_ifs at hbg
      · exact PPU.draw_bg_ctl hbg
      · cases hbg
        exact PPU.sameCtl_self
    have h2 : ((if s3.lcdc.testBit 1 then s3.draw_sprites else some s3).map
        fun s4 => (s4, false)) = some (t, b) := h
    rcases hsp : (if s3.lcdc.testBit 1 then s3.draw_sprites else some s3)
        with _ | s4
    · rw [hsp] at h2
      exact Option.noConfusion h2
    · rw [hsp] at h2
      have hc34 : PPU.SameCtl s3 s4 := by
        split_ifs at hsp
        · exact PPU.draw_sprites_ctl hsp
        · cases hsp
          exact PPU.sameCtl_self
      have h3 : ((s4, false) : PPU × Bool) = (t, b) := Option.some.inj h2
      have h4 : s4 = t := congrArg Prod.fst h3
      rw [← h4]
      exact PPU.sameCtl_trans hc23 hc34

theorem PPU.inv_cycle_draw {s t : PPU} {b : Bool} (hm : s.ppu_mode = .Draw)
    (hI : PPU.Inv s) (h : PPU.cycle_draw s = some (t, b)) : PPU.Inv t := by
  obtain ⟨h1, h2, h3, h4⟩ := hI
  have hly : s.ly ≤ 143 := h2 (by rw [hm]; intro hc; cases hc)
  unfold PPU.cycle_draw at h
  by_cases hc1 : 172 < s.cycle_count
  · rw [if_pos hc1] at h
    have hd : PPU.SameCtl (PPU.stat_int 3 { s with ppu_mode := .HBlank }) t :=
      PPU.draw_phase_ctl h
    refine PPU.Inv_of_sameCtl hd (PPU.inv_stat_int ?_)
    exact ⟨fun hc => (nomatch hc), fun _ => hly, h3, h4⟩
  · rw [if_neg hc1] at h
    have h3e : ((s, false) : PPU × Bool) = (t, b) := Option.some.inj h
    have h4e : s = t := congrArg Prod.fst h3e
    rw [← h4e]
    exact ⟨h1, h2, h3, h4⟩

theorem PPU.inv_lyc_check {s : PPU} (hI : PPU.Inv s) :
    PPU.Inv s.lyc_check :=
  PPU.Inv_of_sameCtl (PPU.lyc_check_ctl s) hI

theorem PPU.pair_opt_fst {p : PPU × Bool} {t : PPU} {b : Bool}
    (h : some p = some (t, b)) : p.1 = t := by
  cases Option.some.inj h
  rfl

theorem PPU.inv_cycle {s t : PPU} {n : Nat} {b : Bool} (hI : PPU.Inv s)
    (h : PPU.cycle s n = some (t, b)) : PPU.Inv t := by
  unfold PPU.cycle at h
  by_cases hen : ¬ s.lcdc.testBit 7 = true
  · rw [if_pos hen] at h
    rw [← PPU.pair_opt_fst h]
    exact hI
  · rw [if_neg hen] at h
    simp only [] at h
    have hI2 : PPU.Inv (PPU.lyc_check
        { s with cycle_count := (s.cycle_count + n) % 4294967296 }) :=
      PPU.inv_lyc_check hI
    rcases hm : (PPU.lyc_check
        { s with cycle_count := (s.cycle_count + n) % 4294967296 }).ppu_mode
        with _ | _ | _ | _ <;> rw [hm] at h
    · rw [← PPU.pair_opt_fst h]
      exact PPU.inv_cycle_oam hm hI2
    · exact PPU.inv_cycle_draw hm hI2 h
    · rw [← PPU.pair_opt_fst h]
      exact PPU.inv_cycle_hblank hm hI2
    · rw [← PPU.pair_opt_fst h]
      exact PPU.inv_cycle_vblank hm hI2

theorem PPU.inv_write {s t : PPU} {a v : Nat} (hI : PPU.Inv s)
    (h : PPU.write s a v = some t) : PPU.Inv t := by
  obtain ⟨h1, h2, h3, h4⟩ := hI
  unfold PPU.write at h
  by_cases ha0 : 0x8000 ≤ a ∧ a ≤ 0x9FFF
  · rw [if_pos ha0] at h
    rw [← Option.some.inj h]
    split_ifs <;> exact ⟨h1, h2, h3, h4⟩
  · rw [if_neg ha0] at h
    by_cases ha1 : 0xFE00 ≤ a ∧ a ≤ 0xFE9F
    · rw [if_pos ha1] at h
      rw [← Option.some.inj h]
      split_ifs <;> exact ⟨h1, h2, h3, h4⟩
    · rw [if_neg ha1] at h
      by_cases ha2 : a = 0xFF40
      · rw [if_pos ha2] at h
        rcases hfb : LCDC.from_bits v with _ | l <;> rw [hfb] at h
        · exact Option.noConfusion h
        · rw [← Option.some.inj h]
          split_ifs
          · exact ⟨h1, h2, h3, h4⟩
          · exact ⟨fun hc => (nomatch hc), fun _ => Nat.zero_le 143, h3, h4⟩
      · rw [if_neg ha2] at h
        by_cases ha3 : a = 0xFF41
        · rw [if_pos ha3] at h
          rcases hfb : LCDS.from_bits (v &&& 0xFC) with _ | l <;> rw [hfb] at h
          · exact Option.noConfusion h
          · have hl : l &&& 0x7C = l := by
              unfold LCDS.from_bits at hfb
              split_ifs at hfb with hc
              rw [← Option.some.inj hfb]
              exact hc
            rw [← Option.some.inj h]
            exact ⟨h1, h2, h3, hl⟩
        · rw [if_neg ha3] at h
          by_cases ha4 : a = 0xFF42
          · rw [if_pos ha4] at h
            rw [← Option.some.inj h]
            exact ⟨h1, h2, h3, h4⟩
          · rw [if_neg ha4] at h
            by_cases ha5 : a = 0xFF43
            · rw [if_pos ha5] at h
              rw [← Option.some.inj h]
              exact ⟨h1, h2, h3, h4⟩
            · rw [if_neg ha5] at h
              by_cases ha6 : a = 0xFF44
              · rw [if_pos ha6] at h
                rw [← Option.some.inj h]
                exact ⟨h1, h2, h3, h4⟩
              · rw [if_neg ha6] at h
                by_cases ha7 : a = 0xFF45
                · rw [if_pos ha7] at h
                  rw [← Option.some.inj h]
                  exact ⟨h1, h2, h3, h4⟩
                · rw [if_neg ha7] at h
                  by_cases ha8 : a = 0xFF47
                  · rw [if_pos ha8] at h
                    rw [← Option.some.inj h]
                    exact ⟨h1, h2, h3, h4⟩
                  · rw [if_neg ha8] at h
                    by_cases ha9 : a = 0xFF48
                    · rw [if_pos ha9] at h
                      rw [← Option.some.inj h]
                      exact ⟨h1, h2, h3, h4⟩
                    · rw [if_neg ha9] at h
                      by_cases ha10 : a = 0xFF49
                      · rw [if_pos ha10] at h
                        rw [← Option.some.inj h]
                        exact ⟨h1, h2, h3, h4⟩
                      · rw [if_neg ha10] at h
                        by_cases ha11 : a = 0xFF4A
                        · rw [if_pos ha11] at h
                          rw [← Option.some.inj h]
                          exact ⟨h1, h2, h3, h4⟩
                        · rw [if_neg ha11] at h
                          by_cases ha12 : a = 0xFF4B
                          · rw [if_pos ha12] at h
                            rw [← Option.some.inj h]
                            exact ⟨h1, h2, h3, h4⟩
                          · rw [if_neg ha12] at h
                            by_cases ha13 : a = 0xFF4D
                            · rw [if_pos ha13] at h
                              rw [← Option.some.inj h]
                              exact ⟨h1, h2, h3, h4⟩
                            · rw [if_neg ha13] at h
                              by_cases ha14 : a = 0xFF4F
                              · rw [if_pos ha14] at h
                                rw [← Option.some.inj h]
                                exact ⟨h1, h2, h3, h4⟩
                              · rw [if_neg ha14] at h
                                by_cases ha15 : 0xFF60 ≤ a ∧ a ≤ 0xFF6F
                                · rw [if_pos ha15] at h
                                  rw [← Option.some.inj h]
                                  exact ⟨h1, h2, h3, h4⟩
                                · rw [if_neg ha15] at h
                                  exact Option.noConfusion h

theorem PPU.inv_init (m : GBMode) : PPU.Inv (PPU.new m) := by
  cases m <;>
    exact ⟨fun hc => (nomatch hc), fun _ => Nat.zero_le 143, Nat.zero_le 9,
      by decide⟩

theorem PPU.reachable_inv {s : PPU} (h : PPU.Reachable s) : PPU.Inv s := by
  induction h with
  | init m => exact PPU.inv_init m
  | cycle _ hc ih => exact PPU.inv_cycle ih hc
  | write _ hw ih => exact PPU.inv_write ih hw

/-- Claim C2: for every reachable PPU state, after any non-panicking call
to `cycle(n)` with LCD_ENABLE set, the mode is one of OAMScan, Draw,
HBlank, VBlank; LY lies in [0, 153]; and LY is in [144, 153] exactly
when the mode is VBlank. -/
theorem c2_cycle_mode_ly_invariant {s t : PPU} {n : Nat} {b : Bool}
    (hr : PPU.Reachable s) (hen : s.lcdc.testBit 7 = true)
    (h : PPU.cycle s n = some (t, b)) :
    (t.ppu_mode = .OAMScan ∨ t.ppu_mode = .Draw ∨ t.ppu_mode = .HBlank ∨
      t.ppu_mode = .VBlank) ∧
    t.ly ≤ 153 ∧
    (144 ≤ t.ly ∧ t.ly ≤ 153 ↔ t.ppu_mode = .VBlank) := by
  have hI : PPU.Inv t := PPU.inv_cycle (PPU.reachable_inv hr) h
  obtain ⟨h1, h2, h3, _⟩ := hI
  refine ⟨?_, ?_, ?_, ?_⟩
  · rcases hm : t.ppu_mode with _ | _ | _ | _ <;> simp [hm]
  · by_cases hv : t.ppu_mode = .VBlank
    · obtain ⟨ha, hb⟩ := h1 hv
      omega
    · have := h2 hv
      omega
  · rintro ⟨ha, hb⟩
    by_contra hv
    have := h2 hv
    omega
  · intro hv
    obtain ⟨ha, hb⟩ := h1 hv
    exact ⟨ha, by omega⟩

/-- Witness for claim C2 at the concrete reachable state `c2s`. -/
theorem c2_cycle_mode_ly_invariant_witness :
    (c2s1.ppu_mode = .OAMScan ∨ c2s1.ppu_mode = .Draw ∨
      c2s1.ppu_mode = .HBlank ∨ c2s1.ppu_mode = .VBlank) ∧
    c2s1.ly ≤ 153 ∧
    (144 ≤ c2s1.ly ∧ c2s1.ly ≤ 153 ↔ c2s1.ppu_mode = .VBlank) :=
  @c2_cycle_mode_ly_invariant c2s c2s1 1 false
    (@PPU.Reachable.write (PPU.new .DMG) c2s 0xFF40 0x80
      (PPU.Reachable.init .DMG) rfl) rfl rfl

/-- Bit-level facts about the STAT read composition, checked for all
stored-STAT values below 128 and mode codes below 4. -/
theorem stat_bits_facts :
    ∀ l < 128, ∀ c < 4, l &&& 0x7C = l →
      ((l ||| 4 ||| c) &&& 3 = c ∧ (l ||| c) &&& 3 = c ∧
       (l ||| 4 ||| c).testBit 2 = true ∧
       (l ||| c).testBit 2 = l.testBit 2) := by decide

/-- Claim C6 amended: for every reachable PPU state, reading STAT
(0xFF41) yields low two bits equal to the current mode code, and bit 2
equal to 1 iff LY = LC or bit 2 of the stored STAT register is set: the
write mask 0b1111_1100 preserves a written bit 2, so LYC_EQ is the OR
of the stored bit and the comparison synthesized on read. -/
theorem c6_stat_read {s : PPU} (hr : PPU.Reachable s) :
    PPU.read s 0xFF41 =
      some ((if s.ly = s.lc then s.lcds ||| 0x04 else s.lcds) |||
        s.ppu_mode.code) ∧
    ((if s.ly = s.lc then s.lcds ||| 0x04 else s.lcds) |||
        s.ppu_mode.code) &&& 3 = s.ppu_mode.code ∧
    ((if s.ly = s.lc then s.lcds ||| 0x04 else s.lcds) |||
        s.ppu_mode.code).testBit 2 =
      (decide (s.ly = s.lc) || s.lcds.testBit 2) := by
  obtain ⟨_, _, _, h4⟩ := PPU.reachable_inv hr
  have h5 : s.lcds &&& 0x7C ≤ 0x7C := Nat.and_le_right
  have hlt : s.lcds < 128 := by
    rw [h4] at h5
    omega
  have hcode : s.ppu_mode.code < 4 := by
    cases hm : s.ppu_mode <;> simp [PPUMode.code]
  have hf := stat_bits_facts s.lcds hlt s.ppu_mode.code hcode h4
  refine ⟨?_, ?_, ?_⟩
  · unfold PPU.read
    norm_num
  · by_cases hly : s.ly = s.lc
    · rw [if_pos hly]
      exact hf.1
    · rw [if_neg hly]
      exact hf.2.1
  · by_cases hly : s.ly = s.lc
    · rw [if_pos hly, hf.2.2.1]
      simp [hly]
    · rw [if_neg hly, hf.2.2.2]
      simp [hly]

/-- Witness for the amended claim C6 at the initial DMG PPU state. -/
theorem c6_stat_read_witness :
    PPU.read (PPU.new .DMG) 0xFF41 =
      some ((if (PPU.new .DMG).ly = (PPU.new .DMG).lc then
          (PPU.new .DMG).lcds ||| 0x04 else (PPU.new .DMG).lcds) |||
        (PPU.new .DMG).ppu_mode.code) ∧
    ((if (PPU.new .DMG).ly = (PPU.new .DMG).lc then
          (PPU.new .DMG).lcds ||| 0x04 else (PPU.new .DMG).lcds) |||
        (PPU.new .DMG).ppu_mode.code) &&& 3 = (PPU.new .DMG).ppu_mode.code ∧
    ((if (PPU.new .DMG).ly = (PPU.new .DMG).lc then
          (PPU.new .DMG).lcds ||| 0x04 else (PPU.new .DMG).lcds) |||
        (PPU.new .DMG).ppu_mode.code).testBit 2 =
      (decide ((PPU.new .DMG).ly = (PPU.new .DMG).lc) ||
        (PPU.new .DMG).lcds.testBit 2) :=
  c6_stat_read (PPU.Reachable.init .DMG)

/-- Claim C6 counterexample: after writing LC = 5 and STAT = 0x04,
reading STAT returns 0x06, whose bit 2 is set although LY (0) differs
from LC (5) — so bit 2 of a STAT read is not synthesized purely from
the LY = LC comparison. -/
theorem c6_stat_cex :
    ((PPU.write (PPU.new .DMG) 0xFF45 5).bind fun s1 =>
        PPU.write s1 0xFF41 0x04) = some c6s ∧
    PPU.read c6s 0xFF41 = some 6 ∧
    (6 : Nat).testBit 2 = true ∧
    c6s.ly ≠ c6s.lc :=
  ⟨rfl, rfl, by decide, by decide⟩

/-- The sanitising mask 0b1111_1100 keeps bit 7, and `LCDS::from_bits`
accepts exactly the bytes whose masked value has no undefined bit. -/
theorem c10_mask_facts :
    ∀ v < 256, ((v &&& 0xFC) &&& 0x7C = v &&& 0xFC ↔ v &&& 0x80 = 0) := by
  decide

/-- Claim C10: the STAT write is not total.  For every byte v, writing
v to 0xFF41 panics (returns `none`) exactly when bit 7 of v is set:
the sanitising mask 0b1111_1100 keeps bit 7, which is not a defined
LCDS flag, so `LCDS::from_bits(...).unwrap()` fails; the error branch
is unreachable precisely under the precondition v & 0x80 == 0. -/
theorem c10_stat_write_not_total {s : PPU} {v : Nat} (hv : v < 256) :
    (PPU.write s 0xFF41 v = none ↔ v &&& 0x80 ≠ 0) := by
  have hb := c10_mask_facts v hv
  unfold PPU.write LCDS.from_bits
  norm_num
  split_ifs with hc
  · constructor
    · intro hfalse
      exact absurd hc (fun _ => hfalse)
    · intro hne
      exact absurd (hb.mp hc) hne
  · constructor
    · intro _ h0
      exact hc (hb.mpr h0)
    · intro _
      rfl

/-- Witness for claim C10: writing 0x80 to STAT panics; writing 0x7C
does not. -/
theorem c10_stat_write_not_total_witness :
    PPU.write (PPU.new .DMG) 0xFF41 0x80 = none ∧
    ¬ PPU.write (PPU.new .DMG) 0xFF41 0x7C = none :=
  ⟨(c10_stat_write_not_total (by decide)).mpr (by decide),
   fun hn => absurd ((c10_stat_write_not_total (by decide)).mp hn)
     (by decide)⟩

theorem APU.trig1_id {s : APU} (h : s.sc1.trigger = false) :
    APU.trig1 s = s := by
  unfold APU.trig1
  rw [h]
  simp

theorem APU.trig2_id {s : APU} (h : s.sc2.trigger = false) :
    APU.trig2 s = s := by
  unfold APU.trig2
  rw [h]
  simp

theorem APU.trig3_id {s : APU} (h : s.sc3.trigger = false) :
    APU.trig3 s = s := by
  unfold APU.trig3
  rw [h]
  simp

theorem APU.trig4_id {s : APU} (h : s.sc4.trigger = false) :
    APU.trig4 s = s := by
  unfold APU.trig4
  rw [h]
  simp

/-- With all triggers clear and no master-control write, the write
postlude is the identity. -/
theorem APU.after_write_id {s : APU} (ht : APU.TrigOff s) :
    APU.after_write false s = s := by
  obtain ⟨t1, t2, t3, t4⟩ := ht
  unfold APU.after_write APU.master_clear
  rw [APU.trig1_id t1, APU.trig2_id t2, APU.trig3_id t3, APU.trig4_id t4]
  simp

theorem APU.trig1_fields (s : APU) :
    (APU.trig1 s).sc1.trigger = false ∧ (APU.trig1 s).sc2 = s.sc2 ∧
    (APU.trig1 s).sc3 = s.sc3 ∧ (APU.trig1 s).sc4 = s.sc4 ∧
    (APU.trig1 s).audio_enabled = s.audio_enabled := by
  unfold APU.trig1
  split_ifs with h1 h2 <;> simp [h1]

theorem APU.trig2_fields (s : APU) :
    (APU.trig2 s).sc2.trigger = false ∧ (APU.trig2 s).sc1 = s.sc1 ∧
    (APU.trig2 s).sc3 = s.sc3 ∧ (APU.trig2 s).sc4 = s.sc4 ∧
    (APU.trig2 s).audio_enabled = s.audio_enabled := by
  unfold APU.trig2
  split_ifs with h1 h2 <;> simp [h1]

theorem APU.trig3_fields (s : APU) :
    (APU.trig3 s).sc3.trigger = false ∧ (APU.trig3 s).sc1 = s.sc1 ∧
    (APU.trig3 s).sc2 = s.sc2 ∧ (APU.trig3 s).sc4 = s.sc4 ∧
    (APU.trig3 s).audio_enabled = s.audio_enabled := by
  unfold APU.trig3
  split_ifs with h1 h2 <;> simp [h1]

theorem APU.trig4_fields (s : APU) :
    (APU.trig4 s).sc4.trigger = false ∧ (APU.trig4 s).sc1 = s.sc1 ∧
    (APU.trig4 s).sc2 = s.sc2 ∧ (APU.trig4 s).sc3 = s.sc3 ∧
    (APU.trig4 s).audio_enabled = s.audio_enabled := by
  unfold APU.trig4
  split_ifs with h1 h2 <;> simp [h1]

theorem APU.master_clear_trig {c : Bool} {s : APU} (ht : APU.TrigOff s) :
    APU.TrigOff (APU.master_clear c s) := by
  obtain ⟨t1, t2, t3, t4⟩ := ht
  unfold APU.master_clear
  split_ifs
  · exact ⟨rfl, rfl, rfl, rfl⟩
  · exact ⟨t1, t2, t3, t4⟩

theorem APU.master_clear_audio (c : Bool) (s : APU) :
    (APU.master_clear c s).audio_enabled = s.audio_enabled := by
  unfold APU.master_clear
  split_ifs <;> rfl

/-- The write postlude always leaves every trigger flag clear. -/
theorem APU.after_write_trig (c : Bool) (s : APU) :
    APU.TrigOff (APU.after_write c s) := by
  unfold APU.after_write
  apply APU.master_clear_trig
  obtain ⟨a1, b1, c1, d1, e1⟩ := APU.trig1_fields s
  obtain ⟨a2, b2, c2, d2, e2⟩ := APU.trig2_fields (APU.trig1 s)
  obtain ⟨a3, b3, c3, d3, e3⟩ := APU.trig3_fields (APU.trig2 (APU.trig1 s))
  obtain ⟨a4, b4, c4, d4, e4⟩ :=
    APU.trig4_fields (APU.trig3 (APU.trig2 (APU.trig1 s)))
  refine ⟨?_, ?_, ?_, a4⟩
  · rw [b4, b3, b2]
    exact a1
  · rw [c4, c3]
    exact a2
  · rw [d4]
    exact a3

theorem APU.after_write_audio (c : Bool) (s : APU) :
    (APU.after_write c s).audio_enabled = s.audio_enabled := by
  unfold APU.after_write
  rw [APU.master_clear_audio]
  rw [(APU.trig4_fields _).2.2.2.2, (APU.trig3_fields _).2.2.2.2,
      (APU.trig2_fields _).2.2.2.2, (APU.trig1_fields _).2.2.2.2]

/-- A master-control write that leaves audio disabled clears all
channel-on flags. -/
theorem APU.after_write_ctl_flags {s : APU} (h : s.audio_enabled = false) :
    APU.FlagsOff (APU.after_write true s) := by
  have haud : (APU.trig4 (APU.trig3 (APU.trig2 (APU.trig1 s)))).audio_enabled
      = false := by
    rw [(APU.trig4_fields _).2.2.2.2, (APU.trig3_fields _).2.2.2.2,
        (APU.trig2_fields _).2.2.2.2, (APU.trig1_fields _).2.2.2.2]
    exact h
  unfold APU.after_write APU.master_clear
  split_ifs with hc
  · exact ⟨rfl, rfl, rfl, rfl⟩
  · refine absurd ⟨rfl, ?_⟩ hc
    simp [haud]

/-- With triggers clear and flags clear, the postlude keeps the flags
clear. -/
theorem APU.after_write_flags {c : Bool} {s : APU}
    (ht : APU.TrigOff s) (hf : APU.FlagsOff s) :
    APU.FlagsOff (APU.after_write c s) := by
  obtain ⟨t1, t2, t3, t4⟩ := ht
  unfold APU.after_write
  rw [APU.trig1_id t1, APU.trig2_id t2, APU.trig3_id t3, APU.trig4_id t4]
  unfold APU.master_clear
  split_ifs
  · exact ⟨rfl, rfl, rfl, rfl⟩
  · exact hf

theorem SC3.write_wave_trigger {c : SC3} {a v : Nat} (hw : 0xFF30 ≤ a) :
    (SC3.write c a v).trigger = c.trigger := by
  unfold SC3.write
  split_ifs <;> first | rfl | (exfalso; omega)

theorem sc1_cycle_trigger (c : SC1) (n : Nat) :
    (SC1.cycle c n).trigger = c.trigger := by
  unfold SC1.cycle
  split_ifs <;> rfl

theorem sc2_cycle_trigger (c : SC2) (n : Nat) :
    (SC2.cycle c n).trigger = c.trigger := by
  unfold SC2.cycle
  split_ifs <;> rfl

theorem sc3_cycle_trigger (c : SC3) (n : Nat) :
    (SC3.cycle c n).trigger = c.trigger := by
  unfold SC3.cycle
  split_ifs <;> rfl

theorem sc4_cycle_trigger (c : SC4) (n : Nat) :
    (SC4.cycle c n).trigger = c.trigger := by
  unfold SC4.cycle
  split_ifs <;> rfl

theorem APU.opt_map_top {o : Option SC1} {s d : APU}
    (h : o.map (fun c => { s with sc1 := c }) = some d) :
    d.audio_enabled = s.audio_enabled ∧
    d.is_ch_1_on = s.is_ch_1_on ∧ d.is_ch_2_on = s.is_ch_2_on ∧
    d.is_ch_3_on = s.is_ch_3_on ∧ d.is_ch_4_on = s.is_ch_4_on := by
  rcases o with _ | c
  · exact Option.noConfusion h
  · simp only [Option.map_some'] at h
    cases Option.some.inj h
    exact ⟨rfl, rfl, rfl, rfl, rfl⟩

/-- A dispatch that is not a master-control write leaves the master
enable and the four channel-on flags unchanged. -/
theorem APU.dispatch_top {s d : APU} {a v : Nat} (hne : a ≠ 0xFF26)
    (h : APU.write_dispatch s a v = some d) :
    d.audio_enabled = s.audio_enabled ∧
    d.is_ch_1_on = s.is_ch_1_on ∧ d.is_ch_2_on = s.is_ch_2_on ∧
    d.is_ch_3_on = s.is_ch_3_on ∧ d.is_ch_4_on = s.is_ch_4_on := by
  unfold APU.write_dispatch at h
  rw [if_neg hne] at h
  split_ifs at h <;>
    first
      | (cases Option.some.inj h; exact ⟨rfl, rfl, rfl, rfl, rfl⟩)
      | exact APU.opt_map_top h

/-- While the master enable is off, a non-control dispatch keeps all
trigger flags clear. -/
theorem APU.dispatch_disabled_trig {s d : APU} {a v : Nat}
    (hne : a ≠ 0xFF26) (hd : s.audio_enabled = false)
    (h : APU.write_dispatch s a v = some d) (ht : APU.TrigOff s) :
    APU.TrigOff d := by
  obtain ⟨t1, t2, t3, t4⟩ := ht
  unfold APU.write_dispatch at h
  rw [if_neg hne] at h
  split_ifs at h <;>
    first
      | (cases Option.some.inj h; exact ⟨t1, t2, t3, t4⟩)
      | (cases Option.some.inj h
         exact ⟨t1, t2,
           by rw [SC3.write_wave_trigger ‹0xFF30 ≤ a ∧ a ≤ 0xFF3F›.1]; exact t3,
           t4⟩)
      | simp_all

/-- The APU write path preserves the invariant. -/
theorem APU.write_preserves_inv {s t : APU} {a v : Nat} (hI : APU.Inv s)
    (h : APU.write s a v = some t) : APU.Inv t := by
  obtain ⟨hts, hfs⟩ := hI
  unfold APU.write at h
  rcases hd : APU.write_dispatch s a v with _ | d
  · rw [hd] at h
    exact Option.noConfusion h
  · rw [hd] at h
    simp only [Option.map_some'] at h
    cases Option.some.inj h
    refine ⟨APU.after_write_trig _ d, fun hdis => ?_⟩
    have hda : d.audio_enabled = false := by
      have e := APU.after_write_audio (decide (a = 0xFF26)) d
      rw [e] at hdis
      exact hdis
    by_cases hctl : a = 0xFF26
    · have hc : (decide (a = 0xFF26)) = true := by simp [hctl]
      rw [hc]
      exact APU.after_write_ctl_flags hda
    · have hsa : s.audio_enabled = false := by
        rw [← (APU.dispatch_top hctl hd).1]
        exact hda
      have hfd : APU.FlagsOff d := by
        obtain ⟨_, f1, f2, f3, f4⟩ := APU.dispatch_top hctl hd
        obtain ⟨g1, g2, g3, g4⟩ := hfs hsa
        exact ⟨f1.trans g1, f2.trans g2, f3.trans g3, f4.trans g4⟩
      exact APU.after_write_flags (APU.dispatch_disabled_trig hctl hsa hd hts) hfd

/-- The APU cycle path preserves the invariant. -/
theorem APU.cycle_preserves_inv {s : APU} (hI : APU.Inv s) (n : Nat) :
    APU.Inv (s.cycle n) := by
  obtain ⟨⟨t1, t2, t3, t4⟩, hf⟩ := hI
  refine ⟨⟨?_, ?_, ?_, ?_⟩, fun hdis => hf hdis⟩
  · show (SC1.cycle s.sc1 n).trigger = false
    rw [sc1_cycle_trigger]
    exact t1
  · show (SC2.cycle s.sc2 n).trigger = false
    rw [sc2_cycle_trigger]
    exact t2
  · show (SC3.cycle s.sc3 n).trigger = false
    rw [sc3_cycle_trigger]
    exact t3
  · show (SC4.cycle s.sc4 n).trigger = false
    rw [sc4_cycle_trigger]
    exact t4

theorem APU.new_inv : APU.Inv APU.new :=
  ⟨⟨rfl, rfl, rfl, rfl⟩, fun hdis => (nomatch hdis)⟩

/-- Every reachable APU state satisfies the invariant. -/
theorem APU.reachable_satisfies_inv {s : APU} (h : APU.Reachable s) : APU.Inv s := by
  induction h with
  | init => exact APU.new_inv
  | cycle _ ih => exact APU.cycle_preserves_inv ih _
  | write _ hw ih => exact APU.write_preserves_inv ih hw

/-- While the master enable is off, a dispatch outside NR52 and wave
RAM returns the state unchanged. -/
theorem APU.dispatch_id_disabled {s : APU} {a v : Nat}
    (hne : a ≠ 0xFF26) (hw : ¬ 0xFF30 ≤ a)
    (hd : s.audio_enabled = false) :
    APU.write_dispatch s a v = some s := by
  unfold APU.write_dispatch
  rw [if_neg hne]
  split_ifs <;> first | rfl | (exfalso; omega) | simp_all

/-- Claim C7 (amended): while master audio is disabled, reading NR52
returns 0x70, and writing any register address in 0xFF10-0xFF2F other
than NR52 itself leaves the APU unchanged.  NR52 (0xFF26) must be
excluded: writing it can re-enable the master, so it changes the
state. -/
theorem c7_apu_disabled {s : APU} (hr : APU.Reachable s)
    (hdis : s.audio_enabled = false) :
    APU.read s 0xFF26 = 0x70 ∧
    ∀ a v : Nat, 0xFF10 ≤ a → a ≤ 0xFF2F → a ≠ 0xFF26 →
      APU.write s a v = some s := by
  obtain ⟨hts, hfs⟩ := APU.reachable_satisfies_inv hr
  obtain ⟨f1, f2, f3, f4⟩ := hfs hdis
  constructor
  · unfold APU.read
    rw [if_pos rfl, hdis, f1, f2, f3, f4]
    decide
  · intro a v h10 h2f hne
    unfold APU.write
    rw [APU.dispatch_id_disabled hne (by omega) hdis]
    simp only [Option.map_some']
    rw [show (decide (a = 0xFF26)) = false from by simp [hne],
        APU.after_write_id hts]

/-- Counterexample to C7 as stated: NR52 (0xFF26) lies in the claimed
range 0xFF10-0xFF3F outside wave RAM, yet writing 0x80 to it while the
master is disabled changes the APU state by re-enabling audio. -/
theorem c7_disabled_write_cex :
    c7s.audio_enabled = false ∧
    ((APU.write c7s 0xFF26 0x80).map fun t => t.audio_enabled) = some true :=
  ⟨rfl, rfl⟩

/-- The amended C7 instantiated at the concrete reachable state with
master audio just disabled. -/
theorem c7_apu_disabled_witness :
    APU.read c7s 0xFF26 = 0x70 ∧
    ∀ a v : Nat, 0xFF10 ≤ a → a ≤ 0xFF2F → a ≠ 0xFF26 →
      APU.write c7s a v = some c7s :=
  c7_apu_disabled
    (@APU.Reachable.write APU.new c7s 0xFF26 0 APU.Reachable.init rfl) rfl

/-- Claim C8 (amended): writing v to NR50 while the master enable is
set stores the unmasked `v >> 4` as the left volume (the source omits
the claimed `& 7` mask) and `v & 7` as the right volume; while
disabled the write is ignored. -/
theorem c8_nr50_write {s : APU} (hr : APU.Reachable s) (v : Nat) :
    APU.write s 0xFF24 v =
      some (if s.audio_enabled then
          { s with left_volume := v >>> 4, right_volume := v &&& 0x07 }
        else s) := by
  obtain ⟨⟨t1, t2, t3, t4⟩, _⟩ := APU.reachable_satisfies_inv hr
  unfold APU.write APU.write_dispatch
  rw [if_neg (by decide : ¬ ((0xFF24:Nat) = 0xFF26)),
      if_neg (by decide : ¬ ((0xFF24:Nat) = 0xFF25)), if_pos rfl]
  simp only [Option.map_some']
  have ht2 : APU.TrigOff (if s.audio_enabled then
      { s with left_volume := v >>> 4, right_volume := v &&& 0x07 }
    else s) := by
    split_ifs
    · exact ⟨t1, t2, t3, t4⟩
    · exact ⟨t1, t2, t3, t4⟩
  rw [show (decide ((0xFF24:Nat) = 0xFF26)) = false from rfl,
      APU.after_write_id ht2]

/-- Counterexample to C8 as stated: writing 0x80 to NR50 from reset
stores left volume 8, while the claimed masked value (0x80 >> 4) & 7
is 0. -/
theorem c8_nr50_cex :
    ((APU.write APU.new 0xFF24 0x80).map fun t => t.left_volume) = some 8 ∧
    ((0x80:Nat) >>> 4) &&& 0x07 = 0 :=
  ⟨rfl, rfl⟩

/-- The amended C8 instantiated at reset with value 0x9F. -/
theorem c8_nr50_write_witness :
    APU.write APU.new 0xFF24 0x9F =
      some (if APU.new.audio_enabled then
          { APU.new with left_volume := 0x9F >>> 4,
                         right_volume := 0x9F &&& 0x07 }
        else APU.new) :=
  c8_nr50_write APU.Reachable.init 0x9F

/-- Claim C4 (amended): with `length_enabled` set, once 16384 T-cycles
(256 Hz) have accumulated, pulse channel 1's length timer increments
while below 64, and at 64 the tick clears `dac_enabled` and
`length_enabled`; but the silencing tick does not clear the channel's
NR52 active flag: `APU::cycle` leaves `is_ch_1_on` unchanged, and NR52
bit 0 reads back exactly that stored flag, so it stays 1. -/
theorem c4_sc1_length {s : SC1} {n : Nat} (apu : APU) (m : Nat)
    (hlen : s.length_enabled = true)
    (htick : 16384 ≤ (s.length_cycle_count + n) % 4294967296) :
    (64 ≤ s.length_timer →
      (SC1.cycle s n).dac_enabled = false ∧
      (SC1.cycle s n).length_enabled = false) ∧
    (s.length_timer < 64 →
      (SC1.cycle s n).length_timer = s.length_timer + 1 ∧
      (SC1.cycle s n).dac_enabled = s.dac_enabled ∧
      (SC1.cycle s n).length_enabled = true) ∧
    (APU.cycle apu m).is_ch_1_on = apu.is_ch_1_on ∧
    APU.read apu 0xFF26 &&& 1 = (if apu.is_ch_1_on then 1 else 0) := by
  refine ⟨fun hmax => ?_, fun hlt => ?_, rfl, ?_⟩
  · unfold SC1.cycle
    rw [if_pos hlen, show APU.hz_to_cycles 256 = 16384 from rfl,
        if_pos htick, if_pos hmax]
    exact ⟨rfl, rfl⟩
  · unfold SC1.cycle
    rw [if_pos hlen, show APU.hz_to_cycles 256 = 16384 from rfl,
        if_pos htick, if_neg (by omega : ¬ 64 ≤ s.length_timer)]
    exact ⟨Nat.mod_eq_of_lt (by omega), rfl, hlen⟩
  · unfold APU.read
    rw [if_pos rfl]
    cases h1 : apu.audio_enabled <;> cases h2 : apu.is_ch_1_on <;>
      cases h3 : apu.is_ch_2_on <;> cases h4 : apu.is_ch_3_on <;>
        cases h5 : apu.is_ch_4_on <;> simp [h1, h2, h3, h4, h5]

/-- Counterexample to C4 as stated: triggering channel 1 with a length
of 63 and letting the length timer run past its maximum clears
`dac_enabled` and `length_enabled`, but NR52 bit 0 still reads 1. -/
theorem c4_length_cex :
    (c4run.map fun s => (s.sc1.dac_enabled, s.sc1.length_enabled,
      APU.read s 0xFF26 &&& 1)) = some (false, false, 1) := rfl

/-- The amended C4 instantiated at a channel state with the timer at
its maximum and a 16384-cycle step, and the reset APU state. -/
theorem c4_sc1_length_witness :
    ((64 ≤ c4s.length_timer →
      (SC1.cycle c4s 16384).dac_enabled = false ∧
      (SC1.cycle c4s 16384).length_enabled = false) ∧
    (c4s.length_timer < 64 →
      (SC1.cycle c4s 16384).length_timer = c4s.length_timer + 1 ∧
      (SC1.cycle c4s 16384).dac_enabled = c4s.dac_enabled ∧
      (SC1.cycle c4s 16384).length_enabled = true) ∧
    (APU.cycle APU.new 8).is_ch_1_on = APU.new.is_ch_1_on ∧
    APU.read APU.new 0xFF26 &&& 1 = (if APU.new.is_ch_1_on then 1 else 0)) :=
  c4_sc1_length APU.new 8 rfl (by decide)

set_option maxRecDepth 8192 in
/-- Claim C5 (amended): writing v to NR12 never clears `dac_enabled`;
it sets it when the upper five bits of v are nonzero, and otherwise
leaves the previous value, because the source only ever assigns
`dac_enabled = true` under the read-back test. -/
theorem c5_env_write (s : SC1) (v : Nat) (hv : v < 256) :
    (SC1.write s 0xFF12 v).map (fun c => c.dac_enabled) =
      some (if v &&& 0xF8 = 0 then s.dac_enabled else true) := by
  unfold SC1.write
  rw [if_neg (by decide : ¬ ((0xFF12:Nat) = 0xFF10)),
      if_neg (by decide : ¬ ((0xFF12:Nat) = 0xFF11)), if_pos rfl]
  simp only []
  unfold SC1.read
  rw [if_neg (by decide : ¬ ((0xFF12:Nat) = 0xFF10)),
      if_neg (by decide : ¬ ((0xFF12:Nat) = 0xFF11)), if_pos rfl]
  dsimp only
  simp only [Option.map_some']
  rw [apply_ite (fun c : SC1 => c.dac_enabled)]
  dsimp only
  have hb : ∀ w, w < 256 →
      ((((w &&& 240) >>> 4 &&& 15) <<< 4 |||
          (if decide ((w &&& 8) >>> 3 ≠ 0) = true then 1 else 0) <<< 3 |||
          w &&& 7 &&& 7) &&& 248 = 0 ↔ w &&& 248 = 0) := by decide
  by_cases hz : v &&& 248 = 0
  · rw [if_neg (not_not_intro ((hb v hv).mpr hz)), if_pos hz]
  · rw [if_pos (fun he => hz ((hb v hv).mp he)), if_neg hz]

/-- Counterexample to C5 as stated: enable the DAC by writing 0xF0 to
NR12, then write 0x00 (upper five bits zero); `dac_enabled` stays
true instead of being cleared. -/
theorem c5_env_write_cex :
    (((SC1.write SC1.new 0xFF12 0xF0).bind fun s1 =>
        SC1.write s1 0xFF12 0x00).map fun c => c.dac_enabled) = some true ∧
    (0x00:Nat) &&& 0xF8 = 0 :=
  ⟨rfl, rfl⟩

/-- The amended C5 instantiated at the reset channel state with value
0. -/
theorem c5_env_write_witness :
    (SC1.write SC1.new 0xFF12 0).map (fun c => c.dac_enabled) =
      some (if (0:Nat) &&& 0xF8 = 0 then SC1.new.dac_enabled else true) :=
  c5_env_write SC1.new 0 (by decide)

/-- Claim C9: a ROM-only cartridge with an image of at least 0x8000
bytes returns byte a of the image for every read in 0x0000-0x7FFF, and
every write, at every address and value, leaves the cartridge
unchanged. -/
theorem c9_rom_only (s : ROMOnly) (a : Nat)
    (hlen : 0x8000 ≤ s.rom.length) (ha : a ≤ 0x7FFF) :
    ROMOnly.read s a = some (s.rom.getD a 0) ∧
    ∀ b w : Nat, ROMOnly.write s b w = s := by
  refine ⟨?_, fun b w => rfl⟩
  unfold ROMOnly.read
  rw [if_pos ha]
  have hlt : a < s.rom.length := by omega
  simp [List.get?_eq_getElem?, List.getD_eq_getElem?_getD,
    List.getElem?_eq_getElem hlt]

/-- C9 instantiated at a 0x8000-byte constant ROM image and read
address 5; the write conjunct stays quantified over all addresses and
values. -/
theorem c9_rom_only_witness :
    ROMOnly.read ⟨List.replicate 0x8000 7⟩ 5 =
      some ((List.replicate 0x8000 7).getD 5 0) ∧
    ∀ b w : Nat, ROMOnly.write ⟨List.replicate 0x8000 7⟩ b w =
      ⟨List.replicate 0x8000 7⟩ :=
  c9_rom_only ⟨List.replicate 0x8000 7⟩ 5
    (by rw [List.length_replicate]) (by decide)

/-- `free_run` splits over a sum of fuels. -/
theorem PPU.free_run_add (c m n : Nat) (s : PPU) :
    PPU.free_run c (m + n) s = (PPU.free_run c m s).bind (PPU.free_run c n) := by
  induction m generalizing s with
  | zero =>
    rw [Nat.zero_add]
    simp [PPU.free_run]
  | succ m ih =>
    have e : m + 1 + n = (m + n) + 1 := by omega
    rw [e]
    simp only [PPU.free_run]
    rcases h : PPU.cycle s c with _ | ⟨s1, b⟩
    · rfl
    · rcases b
      · simpa using ih s1
      · rfl

/-- Composition of two `free_run` segments. -/
theorem PPU.free_run_trans {c m n : Nat} {s t u : PPU}
    (h1 : PPU.free_run c m s = some t) (h2 : PPU.free_run c n t = some u) :
    PPU.free_run c (m + n) s = some u := by
  rw [PPU.free_run_add, h1]
  simpa using h2

theorem c1_run_a1 : PPU.free_run 8 800 c1s0 = some c1a1 := rfl

theorem c1_run_a2 : PPU.free_run 8 800 c1a1 = some c1a2 := rfl

theorem c1_run_a3 : PPU.free_run 8 800 c1a2 = some c1a3 := rfl

theorem c1_run_a4 : PPU.free_run 8 800 c1a3 = some c1a4 := rfl

theorem c1_run_a5 : PPU.free_run 8 800 c1a4 = some c1a5 := rfl

theorem c1_run_a6 : PPU.free_run 8 800 c1a5 = some c1a6 := rfl

theorem c1_run_a7 : PPU.free_run 8 800 c1a6 = some c1a7 := rfl

theorem c1_run_a8 : PPU.free_run 8 800 c1a7 = some c1a8 := rfl

theorem c1_run_a9 : PPU.free_run 8 800 c1a8 = some c1a9 := rfl

theorem c1_run_a10 : PPU.free_run 8 800 c1a9 = some c1a10 := rfl

theorem c1_run_a11 : PPU.free_run 8 800 c1a10 = some c1a11 := rfl

theorem c1_run_a12 : PPU.free_run 8 800 c1a11 = some c1a12 := rfl

theorem c1_run_a13 : PPU.free_run 8 48 c1a12 = some c1a13 := rfl

theorem c1_run_b1 : PPU.free_run 8 800 c1s1 = some c1b1 := rfl

theorem c1_run_b2 : PPU.free_run 8 800 c1b1 = some c1b2 := rfl

theorem c1_run_b3 : PPU.free_run 8 800 c1b2 = some c1b3 := rfl

theorem c1_run_b4 : PPU.free_run 8 800 c1b3 = some c1b4 := rfl

theorem c1_run_b5 : PPU.free_run 8 800 c1b4 = some c1b5 := rfl

theorem c1_run_b6 : PPU.free_run 8 800 c1b5 = some c1b6 := rfl

theorem c1_run_b7 : PPU.free_run 8 800 c1b6 = some c1b7 := rfl

theorem c1_run_b8 : PPU.free_run 8 800 c1b7 = some c1b8 := rfl

theorem c1_run_b9 : PPU.free_run 8 800 c1b8 = some c1b9 := rfl

theorem c1_run_b10 : PPU.free_run 8 800 c1b9 = some c1b10 := rfl

theorem c1_run_b11 : PPU.free_run 8 800 c1b10 = some c1b11 := rfl

theorem c1_run_b12 : PPU.free_run 8 800 c1b11 = some c1b12 := rfl

theorem c1_run_b13 : PPU.free_run 8 617 c1b12 = some c1b13 := rfl

/-- 9648 `cycle(8)` calls from reset reach `c1a13` with no call entering
VBlank. -/
theorem c1_seg_a : PPU.free_run 8 9648 c1s0 = some c1a13 := by
  have e : (9648 : Nat) = 800+800+800+800+800+800+800+800+800+800+800+800+48 := rfl
  rw [e]
  exact PPU.free_run_trans (PPU.free_run_trans (PPU.free_run_trans (PPU.free_run_trans (PPU.free_run_trans (PPU.free_run_trans (PPU.free_run_trans (PPU.free_run_trans (PPU.free_run_trans (PPU.free_run_trans (PPU.free_run_trans (PPU.free_run_trans (c1_run_a1) c1_run_a2) c1_run_a3) c1_run_a4) c1_run_a5) c1_run_a6) c1_run_a7) c1_run_a8) c1_run_a9) c1_run_a10) c1_run_a11) c1_run_a12) c1_run_a13

/-- 10217 `cycle(8)` calls from the first VBlank entry reach `c1b13`
with no call entering VBlank again. -/
theorem c1_seg_b : PPU.free_run 8 10217 c1s1 = some c1b13 := by
  have e : (10217 : Nat) = 800+800+800+800+800+800+800+800+800+800+800+800+617 := rfl
  rw [e]
  exact PPU.free_run_trans (PPU.free_run_trans (PPU.free_run_trans (PPU.free_run_trans (PPU.free_run_trans (PPU.free_run_trans (PPU.free_run_trans (PPU.free_run_trans (PPU.free_run_trans (PPU.free_run_trans (PPU.free_run_trans (PPU.free_run_trans (c1_run_b1) c1_run_b2) c1_run_b3) c1_run_b4) c1_run_b5) c1_run_b6) c1_run_b7) c1_run_b8) c1_run_b9) c1_run_b10) c1_run_b11) c1_run_b12) c1_run_b13

/-- Claim C1: the claim states that a continuously cycled PPU with
LCD_ENABLE set spends exactly 70224 T-cycles (154 scanlines of 456)
between two consecutive entries into VBlank.  The code disagrees: this
theorem evaluates the code at the failing input.  Stepping the reset
DMG PPU `c1s0` by `cycle(8)` calls (8 divides both 80 and 456, so this
schedule consumes exactly the per-T-cycle budget), the 9649th call is
the first to enter VBlank; from the resulting state `c1s1`, the next
10217 calls do not enter VBlank and the 10218th does, returning to
`c1s1` exactly.  Hence consecutive VBlank entries are 10218 calls of 8
T-cycles apart: 81744 T-cycles, not 70224.  Each visible scanline costs
80 + 456 = 536 T-cycles because the OAMScan arm subtracts 80 but the
Draw arm never subtracts its 172, so the HBlank threshold of 456 spans
Draw and HBlank together (src/ppu.rs lines 146-188);
144 * 536 + 10 * 456 = 81744. -/

theorem c1_vblank_gap_is_81744 :
    PPU.free_run 8 9648 c1s0 = some c1a13 ∧
    PPU.cycle c1a13 8 = some (c1s1, true) ∧
    PPU.free_run 8 10217 c1s1 = some c1b13 ∧
    PPU.cycle c1b13 8 = some (c1s1, true) ∧
    8 * (10217 + 1) = 81744 :=
  ⟨c1_seg_a, rfl, c1_seg_b, rfl, rfl⟩

/-- Claim C3 counterexample: in the blank-frame scenario (LCDC = 0x80,
BGP = 0xFC, VRAM zeroed, mono mode) the claim predicts every
framebuffer pixel equals palette entry 3 = (8,41,85,255) after one
frame.  In fact, because LCDC = 0x80 has WINDOW_PRIORITY (bit 0) clear
and the PPU is not in color mode, `draw_bg` is never called
(src/ppu.rs line 153), so after one full frame the first pixel is
(0,0,0,0), not (8,41,85,255). -/
theorem c3_blank_frame_cex :
    ((PPU.write (PPU.new .DMG) 0xFF40 0x80).bind fun s =>
        PPU.write s 0xFF47 0xFC) = some c3s0 ∧
    (c3run.map fun s => (s.frame_buffer 0, s.frame_buffer 1,
        s.frame_buffer 2, s.frame_buffer 3)) = some (0, 0, 0, 0) ∧
    ((0, 0, 0, 0) : Nat × Nat × Nat × Nat) ≠ (8, 41, 85, 255) :=
  ⟨rfl, rfl, by decide⟩

/-- Claim C3 amended: on a Draw to HBlank transition the PPU renders the
background/window only when it is in color mode or LCDC bit 0
(WINDOW_PRIORITY) is set, then sprites only if OBJ_ENABLE; with
LCDC = 0x80, BGP = 0xFC and VRAM zeroed in mono mode, rendering is
skipped entirely, so after one full frame every framebuffer byte is 0
(every pixel is (0,0,0,0)), while the VBLANK interrupt has been
raised. -/
theorem c3_blank_frame_all_zero :
    (c3run.map fun s => s.interrupts.v_blank) = some true ∧
    ∀ i : Nat, (c3run.map fun s => s.frame_buffer i) = some 0 :=
  ⟨rfl, fun _ => rfl⟩
